import Mathlib

/-!
# Verification of the Heist game server

A shallow embedding of the authoritative game-server logic of the Heist
cooperative stealth game (src/server.js), together with proofs and
refutations of the specification claims about it.

Conventions of the embedding:
* JavaScript numbers holding integral game quantities (coordinates, hit
  points, timers in milliseconds, battery, scores) are modelled as `Int`;
  every value the server ever stores in them is an integer and the
  arithmetic performed on them (addition, subtraction, `Math.max`,
  `Math.min`, `Math.floor` of exact divisions) is exact on integers.
* The one place the server computes a fractional value, the effective
  guard movement interval `Math.max(200, speed * 0.8)` /
  `Math.max(150, speed * 0.5)`, is compared against the integral
  movement timer; the comparison is modelled exactly by scaling both
  sides by 10 (`10 * moveTimer < max 2000 (8 * speed)` etc.).  For every
  guard speed the generator produces (multiples of 50 in [250, 450])
  the double-precision products are exact, so the scaled integer
  comparison coincides with the source's float comparison.
* In-place mutation of the single game-state object becomes explicit
  state passing: every update function takes the state and returns the
  updated state.
* `Math.random()` (used only by the level generator) is modelled as an
  oracle: a list of rationals in `[0, 1)` consumed left to right, with
  `0` returned once the list is exhausted.  The two uses of
  `Array.prototype.sort` with a random comparator (an engine-dependent
  shuffle) are modelled as explicit shuffle-function parameters.
* Field `open` of doors and safes is renamed `isOpen` (`open` is a Lean
  keyword).  All other names follow the source.
-/

/-- A grid position, as the `{x, y}` point literals of the source. -/
structure Pos where
  x : Int
  y : Int
deriving Repr, DecidableEq

/-- The ground agent ("thief") entity of the game state. -/
structure Thief where
  x : Int
  y : Int
  hp : Int
  maxHp : Int
  loot : Int
  totalLoot : Int
  picking : Bool
  pickTimer : Int
  pickTarget : Option Pos
  pickSpeed : Int
  spotted : Bool
  invulnTimer : Int
  action : String
  visionRadius : Int
  sprinting : Bool
  sprintTimer : Int
  sprintDuration : Int
  sprintCooldown : Int
  sprintCooldownMax : Int
  noiseCharges : Int
  smokeCharges : Int
  locksPicked : Int
deriving Repr, DecidableEq

/-- The drone's ping marker `{x, y, timer}`. -/
structure Ping where
  x : Int
  y : Int
  timer : Int
deriving Repr, DecidableEq

/-- The drone entity of the game state. -/
structure Drone where
  x : Int
  y : Int
  battery : Int
  maxBattery : Int
  hacks : Int
  charging : Bool
  chargeTimer : Int
  chargeSpeed : Int
  freezeDuration : Int
  hackCost : Int
  empCharges : Int
  decoyCharges : Int
  ping : Option Ping
deriving Repr, DecidableEq

/-- A guard entity. -/
structure Guard where
  x : Int
  y : Int
  route : List Pos
  routeIdx : Nat
  dir : Nat
  frozen : Bool
  frozenTimer : Int
  speed : Int
  moveTimer : Int
  alertLevel : Nat
  alertTimer : Int
  lastKnownThief : Option Pos
  investigateTarget : Option Pos
deriving Repr, DecidableEq

/-- Door kind: `'electronic'` or `'physical'` in the source. -/
inductive DoorType where
  | electronic
  | physical
deriving Repr, DecidableEq

/-- A door; `isOpen` models the source field `open`. -/
structure Door where
  x : Int
  y : Int
  type : DoorType
  isOpen : Bool
deriving Repr, DecidableEq

/-- A loot item. -/
structure LootItem where
  x : Int
  y : Int
  primary : Bool
  collected : Bool
deriving Repr, DecidableEq

/-- A camera.  `rotTimer` is created on demand in the source
(`cam.rotTimer = (cam.rotTimer || 0) + dt`); it is modelled as an always
present field initialised to `0`, which has the same semantics. -/
structure Camera where
  x : Int
  y : Int
  active : Bool
  dir : Nat
  rotTimer : Int
deriving Repr, DecidableEq

/-- A laser hazard. -/
structure Laser where
  x : Int
  y : Int
  active : Bool
  period : Int
  timer : Int
  horizontal : Bool
deriving Repr, DecidableEq

/-- A tripwire hazard. -/
structure Tripwire where
  x : Int
  y : Int
  triggered : Bool
deriving Repr, DecidableEq

/-- A safe; `isOpen` models the source field `open`. -/
structure Safe where
  x : Int
  y : Int
  isOpen : Bool
  lootValue : Int
deriving Repr, DecidableEq

/-- A timed point effect (`noisemakers`, `smokeClouds`, `decoys` all hold
`{x, y, timer}` records). -/
structure Effect where
  x : Int
  y : Int
  timer : Int
deriving Repr, DecidableEq

/-- A screen-shake event `{intensity, duration}`. -/
structure Shake where
  intensity : Int
  duration : Int
deriving Repr, DecidableEq

/-- Identifier of a bonus-objective template (`OBJECTIVE_TEMPLATES`). -/
inductive ObjId where
  | speed_demon
  | ghost
  | hacker
  | collector
  | efficient
  | untouchable
  | locksmith
  | freeze_master
deriving Repr, DecidableEq

/-- A bonus objective instance (`{...template, completed}`); the
completion predicate attached as a closure in the source is the pure
function `objCheck` of the template id. -/
structure Objective where
  id : ObjId
  completed : Bool
deriving Repr, DecidableEq

/-- The full mutable game state of one room (`createGameState`). -/
structure GameState where
  level : Int
  map : List (List Char)
  mapWidth : Int
  mapHeight : Int
  thief : Thief
  drone : Drone
  guards : List Guard
  doors : List Door
  loot : List LootItem
  cameras : List Camera
  chargingPads : List Pos
  alarmPanels : List Pos
  lasers : List Laser
  tripwires : List Tripwire
  safes : List Safe
  exitPos : Pos
  alarmActive : Bool
  alarmTimer : Int
  primaryLootTotal : Int
  primaryLootCollected : Int
  bonusLootCollected : Int
  exitOpen : Bool
  gameOver : Bool
  gameWon : Bool
  timer : Int
  score : Int
  alertTriggered : Bool
  guardsHacked : Int
  noisemakers : List Effect
  smokeClouds : List Effect
  decoys : List Effect
  objectives : List Objective
  shakeEvents : List Shake
  sounds : List String
deriving Repr, DecidableEq

/-- Read `map[y][x]`; out-of-range reads give `'#'` (every access in the
source is guarded by a bounds check, so the default is never observed). -/
def tileAt (m : List (List Char)) (x y : Int) : Char :=
  if 0 ≤ x ∧ 0 ≤ y then (m.getD y.toNat []).getD x.toNat '#' else '#'

/-- Write `map[y][x] = c`; out-of-range writes are dropped (the source
never performs one). -/
def setTile (m : List (List Char)) (x y : Int) (c : Char) : List (List Char) :=
  if 0 ≤ x ∧ 0 ≤ y then m.set y.toNat ((m.getD y.toNat []).set x.toNat c) else m

/-- The direction vectors `[{x:0,y:-1},{x:1,y:0},{x:0,y:1},{x:-1,y:0}]`
indexed by a guard/camera facing direction (always in `0..3`). -/
def dirVec : Nat → Pos
  | 0 => ⟨0, -1⟩
  | 1 => ⟨1, 0⟩
  | 2 => ⟨0, 1⟩
  | _ => ⟨-1, 0⟩

/-- Update the first element satisfying `p` (the target of an
`Array.prototype.find` whose result the source then mutates in place). -/
def updateFirst (p : α → Bool) (f : α → α) : List α → List α
  | [] => []
  | a :: as => if p a then f a :: as else a :: updateFirst p f as

/-- `isWalkable(state, x, y)`. -/
def isWalkable (s : GameState) (x y : Int) : Bool :=
  if x < 0 || x ≥ s.mapWidth || y < 0 || y ≥ s.mapHeight then false
  else
    let tile := tileAt s.map x y
    if tile == '#' then false
    else if tile == 'S' &&
        (match s.safes.find? (fun sf => sf.x == x && sf.y == y) with
         | some sf => !sf.isOpen
         | none => false) then false
    else if (tile == 'D' || tile == 'L') &&
        (match s.doors.find? (fun d => d.x == x && d.y == y) with
         | some d => !d.isOpen
         | none => false) then false
    else true

/-- `isBlockedForVision(state, x, y)`. -/
def isBlockedForVision (s : GameState) (x y : Int) : Bool :=
  if x < 0 || x ≥ s.mapWidth || y < 0 || y ≥ s.mapHeight then true
  else
    let tile := tileAt s.map x y
    if tile == '#' then true
    else if (tile == 'D' || tile == 'L') &&
        (match s.doors.find? (fun d => d.x == x && d.y == y) with
         | some d => !d.isOpen
         | none => false) then true
    else if s.smokeClouds.any (fun c => (c.x - x).natAbs ≤ 1 && (c.y - y).natAbs ≤ 1) then true
    else false

/-- `updateAlarm(state, dt)`. -/
def updateAlarm (s : GameState) (dt : Int) : GameState :=
  if !s.alarmActive then
    if s.thief.spotted then
      { s with
        thief := { s.thief with
          spotted := false
          action := if s.thief.sprinting then "SPRINTING" else "Idle" } }
    else s
  else
    let s := { s with alarmTimer := s.alarmTimer - dt }
    if s.alarmTimer ≤ 0 then
      let s := { s with
        thief := { s.thief with hp := s.thief.hp - 1 }
        sounds := s.sounds ++ ["hit"]
        shakeEvents := s.shakeEvents ++ [Shake.mk 5 300]
        alarmActive := false
        alarmTimer := 0 }
      if s.thief.hp ≤ 0 then
        { s with
          gameOver := true
          sounds := s.sounds ++ ["gameOver"]
          shakeEvents := s.shakeEvents ++ [Shake.mk 8 500] }
      else
        { s with thief := { s.thief with spotted := false, action := "Idle" } }
    else s

/-- `updateInvuln(state, dt)`. -/
def updateInvuln (s : GameState) (dt : Int) : GameState :=
  if s.thief.invulnTimer > 0 then
    { s with thief := { s.thief with invulnTimer := s.thief.invulnTimer - dt } }
  else s

/-- The completion predicate `check` of each objective template in
`OBJECTIVE_TEMPLATES`, as a pure function of the state. -/
def objCheck (s : GameState) : ObjId → Bool
  | .speed_demon => s.timer < 90000
  | .ghost => !s.alertTriggered
  | .hacker => s.drone.hacks ≥ 3
  | .collector => (s.loot.filter (fun l => !l.primary)).all (fun l => l.collected)
  | .efficient => s.drone.battery ≥ 50
  | .untouchable => s.thief.hp == s.thief.maxHp
  | .locksmith => s.thief.locksPicked ≥ 2
  | .freeze_master => s.guardsHacked ≥ 3

/-- The alarm-arming block repeated verbatim at the three detection sites
(tripwire, guard sight, camera sight); `act` is the action label written
there (`'TRIPWIRE!'` or `'SPOTTED!'`). -/
def armAlarm (s : GameState) (act : String) : GameState :=
  { s with
    alarmActive := true
    alarmTimer := 10000
    thief := { s.thief with spotted := true, action := act }
    alertTriggered := true
    sounds := s.sounds ++ ["alarm"]
    shakeEvents := s.shakeEvents ++ [Shake.mk 4 400] }

/-- The laser-grid check at the top of `moveThief`: damage is applied
before the position update; the returned flag is `true` when the damage
was fatal and the function returned early (move cancelled). -/
def moveLaserCheck (s : GameState) (nx ny : Int) : GameState × Bool :=
  match s.lasers.find? (fun l => l.x == nx && l.y == ny && l.active) with
  | none => (s, false)
  | some _ =>
    if s.thief.invulnTimer ≤ 0 then
      let s : GameState := { s with
        thief := { s.thief with hp := s.thief.hp - 1, invulnTimer := 1500 }
        sounds := s.sounds ++ ["hit"]
        shakeEvents := s.shakeEvents ++ [Shake.mk 3 300] }
      if s.thief.hp ≤ 0 then
        ({ s with
            gameOver := true
            sounds := s.sounds ++ ["gameOver"]
            shakeEvents := s.shakeEvents ++ [Shake.mk 8 500] }, true)
      else (s, false)
    else (s, false)

/-- The tripwire check of `moveThief` at the destination tile. -/
def moveTripwireCheck (s : GameState) (nx ny : Int) : GameState :=
  match s.tripwires.find? (fun t => t.x == nx && t.y == ny && !t.triggered) with
  | none => s
  | some _ =>
    let s := { s with
      tripwires := updateFirst (fun t : Tripwire => t.x == nx && t.y == ny && !t.triggered)
        (fun t => { t with triggered := true }) s.tripwires
      map := setTile s.map nx ny '.' }
    if !s.alarmActive then armAlarm s ("TRIPWIRE!") else s

/-- The loot-pickup check of `moveThief` at the destination tile. -/
def moveLootCheck (s : GameState) (nx ny : Int) : GameState :=
  match s.loot.find? (fun l => l.x == nx && l.y == ny && !l.collected) with
  | none => s
  | some lootItem =>
    let s := { s with
      loot := updateFirst (fun l : LootItem => l.x == nx && l.y == ny && !l.collected)
        (fun l => { l with collected := true }) s.loot
      thief := { s.thief with loot := s.thief.loot + 1, totalLoot := s.thief.totalLoot + 1 } }
    let s :=
      if lootItem.primary then { s with primaryLootCollected := s.primaryLootCollected + 1 }
      else { s with bonusLootCollected := s.bonusLootCollected + 1 }
    let s := { s with
      map := setTile s.map nx ny '.'
      sounds := s.sounds ++ ["loot"] }
    if s.primaryLootCollected ≥ s.primaryLootTotal then
      { s with exitOpen := true, sounds := s.sounds ++ ["doorOpen"] }
    else s

/-- One iteration of the safe-interaction loop of `moveThief` (thief at
the new position `(nx, ny)` must be 4-adjacent, drone co-located). -/
def moveSafeStep (nx ny : Int) (s : GameState) (safe : Safe) : GameState × Safe :=
  if safe.isOpen then (s, safe)
  else
    let adjacent := (nx - safe.x).natAbs + (ny - safe.y).natAbs == 1
    let droneOn := s.drone.x == safe.x && s.drone.y == safe.y
    if adjacent && droneOn then
      ({ s with
          map := setTile s.map safe.x safe.y '.'
          score := s.score + safe.lootValue
          sounds := s.sounds ++ ["loot", "hack"] },
       { safe with isOpen := true })
    else (s, safe)

/-- Accumulator form of one safe-loop iteration. -/
def safeFoldStep (nx ny : Int) (acc : GameState × List Safe) (safe : Safe) :
    GameState × List Safe :=
  let r := moveSafeStep nx ny acc.1 safe
  (r.1, acc.2 ++ [r.2])

/-- The safe-interaction loop of `moveThief` over all safes. -/
def moveSafesCheck (s : GameState) (nx ny : Int) : GameState :=
  let p := s.safes.foldl (safeFoldStep nx ny) (s, [])
  { p.1 with safes := p.2 }

/-- One iteration of the bonus-objective loop in the win branch of
`moveThief`: a satisfied objective is marked completed and awards
1000 points. -/
def objectiveStep (acc : GameState × List Objective) (obj : Objective) :
    GameState × List Objective :=
  if objCheck acc.1 obj.id then
    ({ acc.1 with score := acc.1.score + 1000 }, acc.2 ++ [{ obj with completed := true }])
  else (acc.1, acc.2 ++ [obj])

/-- The exit check at the end of `moveThief`: win scoring and objective
evaluation, entered only when standing on `'>'` with the exit unlocked. -/
def moveExitCheck (s : GameState) (nx ny : Int) : GameState :=
  if tileAt s.map nx ny == '>' && s.exitOpen then
    let s := { s with gameWon := true }
    let s := { s with score := s.score + s.primaryLootCollected * 1000 }
    let s := { s with score := s.score + s.bonusLootCollected * 500 }
    let s := { s with score := s.score + max 0 (3000 - (s.timer.fdiv 1000) * 10) }
    let s := if !s.alertTriggered then { s with score := s.score + 2000 } else s
    let p := s.objectives.foldl objectiveStep (s, [])
    let s := { p.1 with objectives := p.2 }
    { s with sounds := s.sounds ++ ["victory"] }
  else s

/-- `moveThief(state, dx, dy)`. -/
def moveThief (s : GameState) (dx dy : Int) : GameState :=
  if s.gameOver || s.gameWon || s.thief.picking then s
  else
    let nx := s.thief.x + dx
    let ny := s.thief.y + dy
    if !isWalkable s nx ny then s
    else
      match moveLaserCheck s nx ny with
      | (s, true) => s
      | (s, false) =>
        let s := { s with
          thief := { s.thief with x := nx, y := ny }
          sounds := s.sounds ++ ["move"] }
        let s := moveTripwireCheck s nx ny
        let s := moveLootCheck s nx ny
        let s := moveSafesCheck s nx ny
        moveExitCheck s nx ny

/-- `updatePickLock(state, dt)`.  (While `picking` the source always has
a non-null `pickTarget`; a null target is modelled as finding no door.) -/
def updatePickLock (s : GameState) (dt : Int) : GameState :=
  if !s.thief.picking then s
  else
    let s := { s with thief := { s.thief with pickTimer := s.thief.pickTimer - dt } }
    if s.thief.pickTimer ≤ 0 then
      let s : GameState :=
        match s.thief.pickTarget with
        | some t =>
          match s.doors.find? (fun d => d.x == t.x && d.y == t.y) with
          | some door =>
            { s with
              doors := updateFirst (fun d : Door => d.x == t.x && d.y == t.y)
                (fun d => { d with isOpen := true }) s.doors
              map := setTile s.map door.x door.y '.'
              thief := { s.thief with locksPicked := s.thief.locksPicked + 1 } }
          | none => s
        | none => s
      { s with
        thief := { s.thief with picking := false, pickTarget := none, action := "Idle" }
        sounds := s.sounds ++ ["doorOpen"] }
    else s

/-- `droneHack(state)`. -/
def droneHack (s : GameState) : GameState :=
  if s.gameOver || s.gameWon || s.drone.battery ≤ 0 then s
  else
    let dx := s.drone.x
    let dy := s.drone.y
    let hackCost := s.drone.hackCost
    match s.doors.find? (fun d =>
        d.x == dx && d.y == dy && d.type == DoorType.electronic && !d.isOpen) with
    | some _ =>
      { s with
        doors := updateFirst (fun d : Door =>
            d.x == dx && d.y == dy && d.type == DoorType.electronic && !d.isOpen)
          (fun d => { d with isOpen := true }) s.doors
        map := setTile s.map dx dy '.'
        drone := { s.drone with battery := max 0 (s.drone.battery - hackCost), hacks := s.drone.hacks + 1 }
        sounds := s.sounds ++ ["hack", "doorOpen"] }
    | none =>
    match s.cameras.find? (fun c => c.x == dx && c.y == dy && c.active) with
    | some _ =>
      { s with
        cameras := updateFirst (fun c : Camera => c.x == dx && c.y == dy && c.active)
          (fun c => { c with active := false }) s.cameras
        map := setTile s.map dx dy '.'
        drone := { s.drone with battery := max 0 (s.drone.battery - hackCost), hacks := s.drone.hacks + 1 }
        sounds := s.sounds ++ ["hack"] }
    | none =>
    match s.guards.find? (fun g => g.x == dx && g.y == dy && !g.frozen) with
    | some _ =>
      { s with
        guards := updateFirst (fun g : Guard => g.x == dx && g.y == dy && !g.frozen)
          (fun g => { g with
            frozen := true
            frozenTimer := s.drone.freezeDuration
            alertLevel := 0
            alertTimer := 0
            lastKnownThief := none
            investigateTarget := none }) s.guards
        drone := { s.drone with battery := max 0 (s.drone.battery - hackCost), hacks := s.drone.hacks + 1 }
        guardsHacked := s.guardsHacked + 1
        sounds := s.sounds ++ ["hack"] }
    | none =>
    if s.alarmActive then
      match s.alarmPanels.find? (fun a => a.x == dx && a.y == dy) with
      | some _ =>
        { s with
          alarmActive := false
          alarmTimer := 0
          thief := { s.thief with spotted := false }
          drone := { s.drone with battery := max 0 (s.drone.battery - hackCost), hacks := s.drone.hacks + 1 }
          sounds := s.sounds ++ ["hack"] }
      | none => s
    else s

/-- One iteration of the EMP camera loop: an active camera within
Manhattan distance 5 of the drone (at `dpos`) is deactivated and its
map glyph cleared. -/
def empCameraStep (dpos : Pos) (acc : GameState × List Camera) (cam : Camera) :
    GameState × List Camera :=
  if !cam.active then (acc.1, acc.2 ++ [cam])
  else
    let dist := (cam.x - dpos.x).natAbs + (cam.y - dpos.y).natAbs
    if dist ≤ 5 then
      ({ acc.1 with map := setTile acc.1.map cam.x cam.y '.' },
       acc.2 ++ [{ cam with active := false }])
    else (acc.1, acc.2 ++ [cam])

/-- `droneEMP(state)` (the unused local counter `disabled` is dropped). -/
def droneEMP (s : GameState) : GameState :=
  if s.gameOver || s.gameWon then s
  else if s.drone.empCharges ≤ 0 then s
  else
    let s := { s with drone := { s.drone with empCharges := s.drone.empCharges - 1 } }
    let p := s.cameras.foldl (empCameraStep ⟨s.drone.x, s.drone.y⟩) (s, [])
    let s := { p.1 with cameras := p.2 }
    let s := { s with guards := s.guards.map (fun guard : Guard =>
      if guard.frozen then guard
      else
        let dist := (guard.x - s.drone.x).natAbs + (guard.y - s.drone.y).natAbs
        if dist ≤ 3 then { guard with frozen := true, frozenTimer := 3000, alertLevel := 0 }
        else guard) }
    { s with
      sounds := s.sounds ++ ["emp"]
      shakeEvents := s.shakeEvents ++ [Shake.mk 5 400] }

/-- `updateDroneCharge(state, dt)`. -/
def updateDroneCharge (s : GameState) (dt : Int) : GameState :=
  let onPad := (s.chargingPads.find? (fun p => p.x == s.drone.x && p.y == s.drone.y)).isSome
  if onPad && s.drone.battery < s.drone.maxBattery then
    let s := { s with drone := { s.drone with charging := true, chargeTimer := s.drone.chargeTimer + dt } }
    if s.drone.chargeTimer ≥ s.drone.chargeSpeed then
      { s with
        drone := { s.drone with
          battery := min s.drone.maxBattery (s.drone.battery + 25)
          chargeTimer := 0 }
        sounds := s.sounds ++ ["charge"] }
    else s
  else
    { s with drone := { s.drone with charging := false, chargeTimer := 0 } }

/-- One iteration of the laser loop of `updateLasers`: phase toggling
followed by contact damage. -/
def laserStep (dt : Int) (s : GameState) (laser : Laser) : GameState × Laser :=
  let laser := { laser with timer := laser.timer + dt }
  let p : GameState × Laser :=
    if laser.timer ≥ laser.period then
      let laser := { laser with timer := 0, active := !laser.active }
      (if laser.active then { s with sounds := s.sounds ++ ["laser"] } else s, laser)
    else (s, laser)
  let s := p.1
  let laser := p.2
  if laser.active && laser.x == s.thief.x && laser.y == s.thief.y && s.thief.invulnTimer ≤ 0 then
    let s : GameState := { s with
      thief := { s.thief with hp := s.thief.hp - 1, invulnTimer := 1500 }
      sounds := s.sounds ++ ["hit"]
      shakeEvents := s.shakeEvents ++ [Shake.mk 3 300] }
    if s.thief.hp ≤ 0 then
      ({ s with
          gameOver := true
          sounds := s.sounds ++ ["gameOver"]
          shakeEvents := s.shakeEvents ++ [Shake.mk 8 500] }, laser)
    else (s, laser)
  else (s, laser)

/-- Accumulator form of one laser-loop iteration. -/
def laserFoldStep (dt : Int) (acc : GameState × List Laser) (laser : Laser) :
    GameState × List Laser :=
  let r := laserStep dt acc.1 laser
  (r.1, acc.2 ++ [r.2])

/-- `updateLasers(state, dt)`. -/
def updateLasers (s : GameState) (dt : Int) : GameState :=
  let p := s.lasers.foldl (laserFoldStep dt) (s, [])
  { p.1 with lasers := p.2 }

/-- The decrement-then-drop filter shared by the three reverse-iteration
splice loops of `updateEffects` (noisemakers, smoke clouds, decoys). -/
def tickEffects (dt : Int) (es : List Effect) : List Effect :=
  (es.map (fun n : Effect => { n with timer := n.timer - dt })).filter (fun n => n.timer > 0)

/-- The ping-expiry step of `updateEffects`. -/
def updateEffectsPing (s : GameState) (dt : Int) : GameState :=
  { s with drone := { s.drone with ping :=
    match s.drone.ping with
    | some p => if p.timer - dt ≤ 0 then none else some { p with timer := p.timer - dt }
    | none => none } }

/-- The sprint-expiry step of `updateEffects`. -/
def updateEffectsSprint (s : GameState) (dt : Int) : GameState :=
  if s.thief.sprinting then
    let th := { s.thief with sprintTimer := s.thief.sprintTimer - dt }
    if th.sprintTimer ≤ 0 then
      { s with thief := { th with
          sprinting := false
          sprintCooldown := th.sprintCooldownMax
          action := "Idle" } }
    else { s with thief := th }
  else s

/-- The sprint-cooldown step of `updateEffects`. -/
def updateEffectsCooldown (s : GameState) (dt : Int) : GameState :=
  if s.thief.sprintCooldown > 0 then
    { s with thief := { s.thief with sprintCooldown := s.thief.sprintCooldown - dt } }
  else s

/-- `updateEffects(state, dt)` (the reverse-iteration splice loops are
decrement-then-drop filters), staged as the three timer filters followed
by the ping, sprint and cooldown steps in source order. -/
def updateEffects (s : GameState) (dt : Int) : GameState :=
  updateEffectsCooldown
    (updateEffectsSprint
      (updateEffectsPing
        { s with
          noisemakers := tickEffects dt s.noisemakers
          smokeClouds := tickEffects dt s.smokeClouds
          decoys := tickEffects dt s.decoys } dt) dt) dt

/-- The noisemaker/decoy attraction checks at the top of a matured guard
step (first matching noisemaker wins; decoys are only examined when no
noisemaker attracted the guard). -/
def guardAttract (s : GameState) (g : Guard) : Guard :=
  match s.noisemakers.find? (fun n => (n.x - g.x).natAbs + (n.y - g.y).natAbs ≤ 8) with
  | some noise =>
    { g with
      investigateTarget := some ⟨noise.x, noise.y⟩
      alertLevel := 1
      alertTimer := 8000 }
  | none =>
    match s.decoys.find? (fun d => (d.x - g.x).natAbs + (d.y - g.y).natAbs ≤ 6) with
    | some decoy =>
      { g with
        investigateTarget := some ⟨decoy.x, decoy.y⟩
        alertLevel := 2
        alertTimer := 6000 }
    | none => g

/-- Movement-target resolution of a guard step (`route[routeIdx]` is
always in range for generated guards; an empty route is modelled as
standing still). -/
def guardTarget (g : Guard) : Pos :=
  if g.alertLevel == 2 && g.lastKnownThief.isSome then
    g.lastKnownThief.getD ⟨g.x, g.y⟩
  else
    match g.investigateTarget with
    | some t => t
    | none => g.route.getD g.routeIdx ⟨g.x, g.y⟩

/-- The single-axis movement attempt of a guard step; returns the moved
guard and the `moved` flag. -/
def guardMove (s : GameState) (g : Guard) : Guard × Bool :=
  let target := guardTarget g
  if g.x != target.x || g.y != target.y then
    let axisX := (target.x - g.x).natAbs > (target.y - g.y).natAbs
    let gdx : Int := if axisX then (if target.x > g.x then 1 else -1) else 0
    let gdy : Int := if axisX then 0 else (if target.y > g.y then 1 else -1)
    let nx := g.x + gdx
    let ny := g.y + gdy
    if isWalkable s nx ny then
      let dir : Nat :=
        if gdx == 1 then 1
        else if gdx == -1 then 3
        else if gdy == -1 then 0
        else if gdy == 1 then 2
        else g.dir
      ({ g with x := nx, y := ny, dir := dir }, true)
    else (g, false)
  else (g, false)

/-- Patrol-waypoint cycling and target-reached clearing after the
movement attempt (`target` is the target resolved before the move). -/
def guardPostMove (g : Guard) (target : Pos) (moved : Bool) : Guard :=
  let g :=
    if g.alertLevel == 0 && (!moved || (g.x == target.x && g.y == target.y)) then
      { g with routeIdx := (g.routeIdx + 1) % g.route.length }
    else g
  let g :=
    match g.investigateTarget with
    | some t => if g.x == t.x && g.y == t.y then { g with investigateTarget := none } else g
    | none => g
  let g :=
    if g.alertLevel == 2 then
      match g.lastKnownThief with
      | some t => if g.x == t.x && g.y == t.y then { g with lastKnownThief := none } else g
      | none => g
    else g
  g

/-- Alert-timer decay of a guard step. -/
def guardDecay (g : Guard) (dt : Int) : Guard :=
  if g.alertLevel > 0 then
    let g := { g with alertTimer := g.alertTimer - dt }
    if g.alertTimer ≤ 0 then
      { g with
        alertLevel := 0
        alertTimer := 0
        lastKnownThief := none
        investigateTarget := none }
    else g
  else g

/-- The cardinal-direction vision raycast (`for i = 1..range`): walks
tile by tile, stopping at the first vision-blocking tile, and reports
whether the thief's exact tile was reached. -/
def rayHitsThief (s : GameState) (x y dx dy : Int) : Nat → Bool
  | 0 => false
  | n + 1 =>
    let vx := x + dx
    let vy := y + dy
    if isBlockedForVision s vx vy then false
    else if vx == s.thief.x && vy == s.thief.y then true
    else rayHitsThief s vx vy dx dy n

/-- The complete sight check of a guard step evaluated at position
`(x, y)` facing `dir` with alert level `alertLevel`: front raycast
(range 5 when alerted/suspicious, else 3), 1-tile peripheral checks when
alerted/suspicious, and direct tile collision. -/
def canSeeThief (s : GameState) (x y : Int) (dir alertLevel : Nat) : Bool :=
  let dv := dirVec dir
  let visionRange : Nat := if alertLevel ≥ 1 then 5 else 3
  let canSee := rayHitsThief s x y dv.x dv.y visionRange
  let canSee :=
    if !canSee && alertLevel ≥ 1 then
      let perps : List Pos := if dv.x == 0 then [⟨1, 0⟩, ⟨-1, 0⟩] else [⟨0, 1⟩, ⟨0, -1⟩]
      perps.any (fun p =>
        x + p.x == s.thief.x && y + p.y == s.thief.y &&
          !isBlockedForVision s (x + p.x) (y + p.y))
    else canSee
  canSee || (x == s.thief.x && y == s.thief.y)

/-- The collision-damage check at the very end of a matured guard step
(evaluated against the state as updated by the sight/alarm block). -/
def guardCollide (s : GameState) (g : Guard) : GameState × Guard :=
  if g.x == s.thief.x && g.y == s.thief.y && s.thief.invulnTimer ≤ 0 then
    let s : GameState := { s with
      thief := { s.thief with hp := s.thief.hp - 1, invulnTimer := 1500 }
      sounds := s.sounds ++ ["hit"]
      shakeEvents := s.shakeEvents ++ [Shake.mk 5 300] }
    if s.thief.hp ≤ 0 then
      ({ s with
          gameOver := true
          sounds := s.sounds ++ ["gameOver"]
          shakeEvents := s.shakeEvents ++ [Shake.mk 8 500] }, g)
    else (s, g)
  else (s, g)

/-- The vision / alarm / sprint-suspicion / collision-damage block at the
end of a matured guard step (the source wraps it in `if (!guard.frozen)`,
which always holds there). -/
def guardVisionDamage (s : GameState) (g : Guard) : GameState × Guard :=
  if g.frozen then (s, g)
  else
    let canSee := canSeeThief s g.x g.y g.dir g.alertLevel
    let thiefDist := (g.x - s.thief.x).natAbs + (g.y - s.thief.y).natAbs
    let g :=
      if !canSee && thiefDist ≤ 2 && g.alertLevel == 0 && s.thief.sprinting then
        { g with
          alertLevel := 1
          alertTimer := 5000
          investigateTarget := some ⟨s.thief.x, s.thief.y⟩ }
      else g
    let p : GameState × Guard :=
      if canSee then
        let g := { g with
          alertLevel := 2
          alertTimer := 10000
          lastKnownThief := some ⟨s.thief.x, s.thief.y⟩ }
        if !s.alarmActive then (armAlarm s ("SPOTTED!"), g) else (s, g)
      else (s, g)
    guardCollide p.1 p.2

/-- One iteration of the guard loop of `updateGuards`: frozen-timer
handling, movement-timer maturation against the alert-dependent
effective speed, then the matured-step pipeline. -/
def guardStep (s : GameState) (dt : Int) (g : Guard) : GameState × Guard :=
  if g.frozen then
    let g := { g with frozenTimer := g.frozenTimer - dt }
    if g.frozenTimer ≤ 0 then (s, { g with frozen := false, frozenTimer := 0 })
    else (s, g)
  else
    let g := { g with moveTimer := g.moveTimer + dt }
    let effectiveSpeed10 : Int :=
      if g.alertLevel == 1 then max 2000 (8 * g.speed)
      else if g.alertLevel == 2 then max 1500 (5 * g.speed)
      else 10 * g.speed
    if 10 * g.moveTimer < effectiveSpeed10 then (s, g)
    else
      let g := { g with moveTimer := 0 }
      let g := guardAttract s g
      let target := guardTarget g
      let gm := guardMove s g
      let g := guardPostMove gm.1 target gm.2
      let g := guardDecay g dt
      guardVisionDamage s g

/-- One iteration of the camera loop of `updateGuards`: rotation on a
4000 ms period and a range-3 vision cone that arms the alarm. -/
def cameraStep (s : GameState) (dt : Int) (cam : Camera) : GameState × Camera :=
  if !cam.active then (s, cam)
  else
    let cam := { cam with rotTimer := cam.rotTimer + dt }
    let cam :=
      if cam.rotTimer ≥ 4000 then { cam with rotTimer := 0, dir := (cam.dir + 1) % 4 }
      else cam
    let dv := dirVec cam.dir
    let detected := rayHitsThief s cam.x cam.y dv.x dv.y 3
    if detected && !s.alarmActive then (armAlarm s ("SPOTTED!"), cam)
    else (s, cam)

/-- Accumulator form of one guard-loop iteration of `updateGuards`. -/
def guardFoldStep (dt : Int) (acc : GameState × List Guard) (g : Guard) :
    GameState × List Guard :=
  let r := guardStep acc.1 dt g
  (r.1, acc.2 ++ [r.2])

/-- Accumulator form of one camera-loop iteration of `updateGuards`. -/
def cameraFoldStep (dt : Int) (acc : GameState × List Camera) (cam : Camera) :
    GameState × List Camera :=
  let r := cameraStep acc.1 dt cam
  (r.1, acc.2 ++ [r.2])

/-- `updateGuards(state, dt)`: the guard loop followed by the camera
loop, each threading the global state left to right. -/
def updateGuards (s : GameState) (dt : Int) : GameState :=
  let p := s.guards.foldl (guardFoldStep dt) (s, [])
  let s := { p.1 with guards := p.2 }
  let q := s.cameras.foldl (cameraFoldStep dt) (s, [])
  { q.1 with cameras := q.2 }

/-- The per-room fields of the room object that `tickRoom` touches. -/
structure Room where
  gameState : Option GameState
  paused : Bool
deriving Repr, DecidableEq

/-- `tickRoom(room, dt)`: the fixed simulation pipeline of one tick. -/
def tickRoom (room : Room) (dt : Int) : Room :=
  match room.gameState with
  | none => room
  | some state =>
    if state.gameOver || state.gameWon || room.paused then room
    else
      let s := { state with timer := state.timer + dt }
      let s := updatePickLock s dt
      let s := updateGuards s dt
      let s := updateAlarm s dt
      let s := updateDroneCharge s dt
      let s := updateInvuln s dt
      let s := updateLasers s dt
      let s := updateEffects s dt
      let s :=
        if s.alarmActive && (s.timer.fdiv 500) % 2 == 0 && ((s.timer - dt).fdiv 500) % 2 != 0 then
          { s with sounds := s.sounds ++ ["alarm"] }
        else s
      { room with gameState := some s }

/-- A base thief record for concrete test states. -/
def baseThief : Thief where
  x := 1
  y := 1
  hp := 3
  maxHp := 3
  loot := 0
  totalLoot := 0
  picking := false
  pickTimer := 0
  pickTarget := none
  pickSpeed := 3000
  spotted := false
  invulnTimer := 0
  action := "Idle"
  visionRadius := 4
  sprinting := false
  sprintTimer := 0
  sprintDuration := 2000
  sprintCooldown := 0
  sprintCooldownMax := 10000
  noiseCharges := 2
  smokeCharges := 1
  locksPicked := 0

/-- A base drone record for concrete test states. -/
def baseDrone : Drone where
  x := 2
  y := 2
  battery := 100
  maxBattery := 100
  hacks := 0
  charging := false
  chargeTimer := 0
  chargeSpeed := 3000
  freezeDuration := 5000
  hackCost := 25
  empCharges := 1
  decoyCharges := 1
  ping := none

/-- A base guard record for concrete test states. -/
def baseGuard : Guard where
  x := 3
  y := 3
  route := [⟨3, 3⟩]
  routeIdx := 0
  dir := 0
  frozen := false
  frozenTimer := 0
  speed := 250
  moveTimer := 0
  alertLevel := 0
  alertTimer := 0
  lastKnownThief := none
  investigateTarget := none

/-- A minimal 5×5 concrete test state: border walls, floor interior,
no entities, exit at (3, 3). -/
def S0 : GameState where
  level := 1
  map :=
    [['#', '#', '#', '#', '#'],
     ['#', '.', '.', '.', '#'],
     ['#', '.', '.', '.', '#'],
     ['#', '.', '.', '>', '#'],
     ['#', '#', '#', '#', '#']]
  mapWidth := 5
  mapHeight := 5
  thief := baseThief
  drone := baseDrone
  guards := []
  doors := []
  loot := []
  cameras := []
  chargingPads := []
  alarmPanels := []
  lasers := []
  tripwires := []
  safes := []
  exitPos := ⟨3, 3⟩
  alarmActive := false
  alarmTimer := 0
  primaryLootTotal := 3
  primaryLootCollected := 0
  bonusLootCollected := 0
  exitOpen := false
  gameOver := false
  gameWon := false
  timer := 0
  score := 0
  alertTriggered := false
  guardsHacked := 0
  noisemakers := []
  smokeClouds := []
  decoys := []
  objectives := []
  shakeEvents := []
  sounds := []

/-- `S0` with the alarm active and about to expire. -/
def S0alarm : GameState := { S0 with alarmActive := true, alarmTimer := 100 }

/-- No hackable object at the drone cursor: no closed electronic door,
no active camera, no non-frozen guard, and — while the alarm is active —
no alarm panel (the four targets of `droneHack`, in its priority
order). -/
def noHackTarget (s : GameState) : Prop :=
  s.doors.find? (fun d =>
    d.x == s.drone.x && d.y == s.drone.y && d.type == DoorType.electronic && !d.isOpen) = none ∧
  s.cameras.find? (fun c => c.x == s.drone.x && c.y == s.drone.y && c.active) = none ∧
  s.guards.find? (fun g => g.x == s.drone.x && g.y == s.drone.y && !g.frozen) = none ∧
  (s.alarmActive = true →
    s.alarmPanels.find? (fun a => a.x == s.drone.x && a.y == s.drone.y) = none)

instance (s : GameState) : Decidable (noHackTarget s) := by
  unfold noHackTarget
  infer_instance

/-- `S0` with `1` battery (below the hack cost `25`) and a closed
electronic door under the drone cursor at (2, 2). -/
def S3door : GameState := { S0 with
  drone := { baseDrone with battery := 1 }
  doors := [⟨2, 2, DoorType.electronic, false⟩]
  map := setTile S0.map 2 2 'D' }

/-- A non-frozen guard with alert memory, 2 tiles from the drone of
`S0`. -/
def G10near : Guard :=
  { baseGuard with x := 2, y := 4, alertTimer := 7777, lastKnownThief := some ⟨1, 1⟩ }

/-- A guard 6 tiles from the drone of `S0`. -/
def G10far : Guard := { baseGuard with x := 8, y := 2 }

/-- `S0` with the two C10 witness guards. -/
def S10 : GameState := { S0 with guards := [G10near, G10far] }

/-- `S0` with 1 hp and an active laser on the tile right of the thief. -/
def S9 : GameState := { S0 with
  thief := { baseThief with hp := 1 }
  lasers := [⟨2, 1, true, 3000, 0, true⟩] }

/-- `S0` with the invulnerability window open (1500 ms) and the alarm
about to expire. -/
def S5 : GameState := { S0 with
  thief := { baseThief with invulnTimer := 1500 }
  alarmActive := true
  alarmTimer := 100 }

/-- A reachable-shaped state about to violate hp ≥ 0: 1 hp, vulnerable,
a matured guard standing on the thief, and the active alarm 100 ms from
expiry. -/
def S2 : GameState := { S0 with
  thief := { baseThief with hp := 1 }
  alarmActive := true
  alarmTimer := 100
  guards := [{ baseGuard with x := 1, y := 1, route := [⟨1, 1⟩], moveTimer := 150 }] }

/-- `S0` already in the terminal loss state. -/
def S2over : GameState := { S0 with gameOver := true }

/-- Iterate `updateGuards` with the server's fixed 100 ms tick. -/
def iterGuards : Nat → GameState → GameState
  | 0, s => s
  | n + 1, s => iterGuards n (updateGuards s 100)

/-- A 7×7 state with one fully alerted guard (alert timer 10000 ms,
speed 250 so the Alert effective interval is 150 ms) at (3, 3) and the
thief out of sight at (5, 5). -/
def S7 : GameState := { S0 with
  map :=
    [['#', '#', '#', '#', '#', '#', '#'],
     ['#', '#', '#', '#', '#', '#', '#'],
     ['#', '#', '#', '#', '#', '#', '#'],
     ['#', '#', '#', '.', '#', '#', '#'],
     ['#', '#', '#', '#', '#', '#', '#'],
     ['#', '#', '#', '#', '#', '.', '#'],
     ['#', '#', '#', '#', '#', '#', '#']]
  mapWidth := 7
  mapHeight := 7
  thief := { baseThief with x := 5, y := 5 }
  guards := [{ baseGuard with
    x := 3
    y := 3
    route := [⟨3, 3⟩]
    alertLevel := 2
    alertTimer := 10000
    lastKnownThief := some ⟨3, 3⟩ }] }

/-- `S0` with one primary loot item at (2, 1), one bonus loot item at
(3, 1), and a single-item primary quota, for the C1 counterexample. -/
def S1c : GameState := { S0 with
  primaryLootTotal := 1
  loot := [LootItem.mk 2 1 true false, LootItem.mk 3 1 false false] }

/-- `S0` with the thief one tile above the exit, the exit already
unlocked, and the loot ledger consistent, for the C1 witness. -/
def SW : GameState := { S0 with
  thief := { baseThief with x := 3, y := 2 }
  exitOpen := true
  primaryLootCollected := 3 }

/-- A Patrol guard two tiles west of where a decoy will sit, for the C6
witness. -/
def G6 : Guard := { baseGuard with x := 1, y := 3 }

/-- `S0` with that guard and a decoy at (3, 3), within its perception
radius. -/
def S6 : GameState := { S0 with
  guards := [G6]
  decoys := [Effect.mk 3 3 5000] }

-- ======================= claim theorems =======================

/-- C4: if the alarm is active and its countdown reaches zero during an
update (`alarmTimer - dt ≤ 0`), the agent loses exactly 1 hp and the
alarm deactivates (active flag cleared, timer reset) in that same
update. -/
theorem C4_alarm_expiry_damages_once_and_deactivates
    (s : GameState) (dt : Int)
    (hact : s.alarmActive = true) (hexp : s.alarmTimer - dt ≤ 0) :
    (updateAlarm s dt).thief.hp = s.thief.hp - 1 ∧
    (updateAlarm s dt).alarmActive = false ∧
    (updateAlarm s dt).alarmTimer = 0 := by
  unfold updateAlarm
  simp only [hact, Bool.not_true, Bool.false_eq_true, if_false]
  split
  · split <;> simp
  · omega

/-- Witness for C4 at the concrete state `S0alarm` with `dt = 100`. -/
theorem C4_witness :
    S0alarm.alarmActive = true ∧ S0alarm.alarmTimer - 100 ≤ 0 ∧
    (updateAlarm S0alarm 100).thief.hp = S0alarm.thief.hp - 1 ∧
    (updateAlarm S0alarm 100).alarmActive = false ∧
    (updateAlarm S0alarm 100).alarmTimer = 0 := by
  refine ⟨by decide, by decide, ?_⟩
  exact C4_alarm_expiry_damages_once_and_deactivates S0alarm 100 (by decide) (by decide)

/-- C3 counterexample: with battery `1 < hackCost = 25` and a closed
electronic door at the cursor, `droneHack` is *not* a no-op — the door
opens and battery is clamped to 0 — refuting "battery insufficient to
pay the hack cost (battery < hackCost) is a no-op". -/
theorem C3_counterexample_hack_fires_below_cost :
    S3door.drone.battery < S3door.drone.hackCost ∧ droneHack S3door ≠ S3door := by
  decide

/-- C3 (amended): a drone hack with no hackable object at the cursor is
a no-op leaving the entire state unchanged, and so is a hack with
battery ≤ 0 (the source's actual guard, rather than battery < cost);
battery never becomes negative. -/
theorem C3_amended_hack_noop_and_battery_clamp (s : GameState) :
    (s.drone.battery ≤ 0 → droneHack s = s) ∧
    (noHackTarget s → droneHack s = s) ∧
    (0 ≤ s.drone.battery → 0 ≤ (droneHack s).drone.battery) := by
  unfold droneHack noHackTarget
  refine ⟨?_, ?_, ?_⟩
  · intro hb
    simp [hb]
  · rintro ⟨h1, h2, h3, h4⟩
    simp only [h1, h2, h3]
    split
    · rfl
    · split
      · next halarm =>
        rw [h4 (by revert halarm; simp +contextual [Bool.or_eq_false_iff])]
      · rfl
  · intro hb
    split
    · exact hb
    · dsimp only
      repeat' split
      all_goals first
        | exact hb
        | exact le_max_left (0 : Int) _

/-- Witness for the amended C3 at the concrete state `S0` (nothing
hackable at the cursor, so the hack is a no-op). -/
theorem C3_amended_witness : noHackTarget S0 ∧ droneHack S0 = S0 :=
  ⟨by decide, (C3_amended_hack_noop_and_battery_clamp S0).2.1 (by decide)⟩

/-- `updateFirst` is the identity when no element matches. -/
theorem updateFirst_of_find?_eq_none (p : α → Bool) (f : α → α) {l : List α}
    (h : l.find? p = none) : updateFirst p f l = l := by
  induction l with
  | nil => rfl
  | cons a as ih =>
    rw [List.find?_cons] at h
    cases hpa : p a
    · simp only [updateFirst, hpa, Bool.false_eq_true, if_false, List.cons.injEq, true_and]
      exact ih (by simpa [hpa] using h)
    · simp [hpa] at h

/-- The EMP camera loop never touches the guards of the threaded state. -/
theorem empCameraFold_fst_guards (d : Pos) (cams : List Camera)
    (acc : GameState × List Camera) :
    ((cams.foldl (empCameraStep d) acc).1).guards = acc.1.guards := by
  induction cams generalizing acc with
  | nil => rfl
  | cons c cs ih =>
    rw [List.foldl_cons, ih]
    unfold empCameraStep
    split
    · rfl
    · dsimp only
      split <;> rfl

/-- The EMP camera loop never touches the drone of the threaded state. -/
theorem empCameraFold_fst_drone (d : Pos) (cams : List Camera)
    (acc : GameState × List Camera) :
    ((cams.foldl (empCameraStep d) acc).1).drone = acc.1.drone := by
  induction cams generalizing acc with
  | nil => rfl
  | cons c cs ih =>
    rw [List.foldl_cons, ih]
    unfold empCameraStep
    split
    · rfl
    · dsimp only
      split <;> rfl

/-- In a live state with an EMP charge, the guard list after `droneEMP`
is the pointwise freeze of guards within Manhattan distance 3. -/
theorem droneEMP_guards_map (s : GameState)
    (hover : s.gameOver = false) (hwon : s.gameWon = false)
    (hcharge : 1 ≤ s.drone.empCharges) :
    (droneEMP s).guards = s.guards.map (fun guard =>
      if guard.frozen then guard
      else
        if (guard.x - s.drone.x).natAbs + (guard.y - s.drone.y).natAbs ≤ 3 then
          { guard with frozen := true, frozenTimer := 3000, alertLevel := 0 }
        else guard) := by
  unfold droneEMP
  rw [if_neg (by simp [hover, hwon]), if_neg (by omega)]
  dsimp only
  simp only [empCameraFold_fst_guards, empCameraFold_fst_drone]

/-- C10: with at least one EMP charge (in a live game), `droneEMP`
freezes each non-frozen guard within Manhattan distance 3 of the drone
for a fixed 3000 ms and sets its alert level to 0 while leaving its
alert timer, last-known-target and investigate-target unchanged (the
record update names exactly the changed fields); guards outside the
radius are entirely unchanged.  In contrast, `droneHack`'s guard freeze
(when door and camera targets are absent) also clears the alert timer,
last-known-target and investigate-target. -/
theorem C10_emp_freeze_vs_hack_freeze (s : GameState)
    (hover : s.gameOver = false) (hwon : s.gameWon = false)
    (hcharge : 1 ≤ s.drone.empCharges) :
    ((droneEMP s).guards.length = s.guards.length) ∧
    (∀ i (hi : i < s.guards.length) (hic : i < (droneEMP s).guards.length),
      (s.guards[i].frozen = false →
        (s.guards[i].x - s.drone.x).natAbs + (s.guards[i].y - s.drone.y).natAbs ≤ 3 →
        (droneEMP s).guards[i] =
          { s.guards[i] with frozen := true, frozenTimer := 3000, alertLevel := 0 }) ∧
      (3 < (s.guards[i].x - s.drone.x).natAbs + (s.guards[i].y - s.drone.y).natAbs →
        (droneEMP s).guards[i] = s.guards[i])) ∧
    (0 < s.drone.battery →
      s.doors.find? (fun d =>
        d.x == s.drone.x && d.y == s.drone.y && d.type == DoorType.electronic && !d.isOpen) = none →
      s.cameras.find? (fun c => c.x == s.drone.x && c.y == s.drone.y && c.active) = none →
      (droneHack s).guards =
        updateFirst (fun g => g.x == s.drone.x && g.y == s.drone.y && !g.frozen)
          (fun g => { g with
            frozen := true
            frozenTimer := s.drone.freezeDuration
            alertLevel := 0
            alertTimer := 0
            lastKnownThief := none
            investigateTarget := none }) s.guards) := by
  have hmap := droneEMP_guards_map s hover hwon hcharge
  refine ⟨by rw [hmap, List.length_map], ?_, ?_⟩
  · intro i hi hic
    constructor
    · intro hfro hdist
      simp only [hmap, List.getElem_map]
      rw [if_neg (by simp [hfro]), if_pos hdist]
    · intro hdist
      simp only [hmap, List.getElem_map]
      split
      · rfl
      · rw [if_neg (by omega)]
  · intro hbat hdoor hcam
    unfold droneHack
    rw [if_neg (by simp [hover, hwon]; omega)]
    dsimp only
    rw [hdoor, hcam]
    cases hfind : s.guards.find? (fun g => g.x == s.drone.x && g.y == s.drone.y && !g.frozen) with
    | some g => rfl
    | none =>
      rw [updateFirst_of_find?_eq_none _ _ hfind]
      by_cases halarm : s.alarmActive = true
      · rw [if_pos halarm]
        cases s.alarmPanels.find? (fun a => a.x == s.drone.x && a.y == s.drone.y) <;> rfl
      · rw [if_neg halarm]

/-- Witness for C10: a live state with one EMP charge, one non-frozen
guard 2 tiles from the drone (frozen, alert memory kept) and another 6
tiles away (untouched). -/
theorem C10_witness :
    (droneEMP S10).guards[0]? =
      some { G10near with frozen := true, frozenTimer := 3000, alertLevel := 0 } ∧
    (droneEMP S10).guards[1]? = some G10far := by
  have hlen := (C10_emp_freeze_vs_hack_freeze S10 (by decide) (by decide) (by decide)).1
  have h := (C10_emp_freeze_vs_hack_freeze S10 (by decide) (by decide) (by decide)).2.1
  have h0 := (h 0 (by decide) (by rw [hlen]; decide)).1 (by decide) (by decide)
  have h1 := (h 1 (by decide) (by rw [hlen]; decide)).2 (by decide)
  constructor
  · rw [List.getElem?_eq_getElem (by rw [hlen]; decide), h0]
    rfl
  · rw [List.getElem?_eq_getElem (by rw [hlen]; decide), h1]
    rfl

/-- Reading any tile other than the written one is unchanged by
`setTile`. -/
theorem tileAt_setTile_ne (m : List (List Char)) {x y x' y' : Int} (c : Char)
    (h : ¬(x = x' ∧ y = y')) : tileAt (setTile m x y c) x' y' = tileAt m x' y' := by
  unfold setTile
  split
  · next hb =>
    unfold tileAt
    split
    · next hb' =>
      by_cases hy : y = y'
      · have hx : x.toNat ≠ x'.toNat := by omega
        subst hy
        simp only [List.getD_eq_getElem?_getD, List.getElem?_set_self']
        cases hm : m[y.toNat]? with
        | none => rfl
        | some row =>
          simp only [Option.map_eq_map, Option.map_some', Option.getD_some,
            Function.const_apply, List.getD_eq_getElem?_getD,
            List.getElem?_set_ne hx]
      · have hyt : y.toNat ≠ y'.toNat := by omega
        simp only [List.getD_eq_getElem?_getD, List.getElem?_set_ne hyt]
    · rfl
  · rfl

/-- The bonus-objective loop only changes `score` (and the rebuilt
objective list): the listed fields of the threaded state are
preserved. -/
theorem objFold_fst_fields (objs : List Objective) (acc : GameState × List Objective) :
    (objs.foldl objectiveStep acc).1.thief = acc.1.thief ∧
    (objs.foldl objectiveStep acc).1.gameWon = acc.1.gameWon ∧
    (objs.foldl objectiveStep acc).1.exitOpen = acc.1.exitOpen ∧
    (objs.foldl objectiveStep acc).1.primaryLootCollected = acc.1.primaryLootCollected ∧
    (objs.foldl objectiveStep acc).1.primaryLootTotal = acc.1.primaryLootTotal ∧
    (objs.foldl objectiveStep acc).1.map = acc.1.map ∧
    (objs.foldl objectiveStep acc).1.gameOver = acc.1.gameOver := by
  induction objs generalizing acc with
  | nil => exact ⟨rfl, rfl, rfl, rfl, rfl, rfl, rfl⟩
  | cons o os ih =>
    rw [List.foldl_cons]
    obtain ⟨i1, i2, i3, i4, i5, i6, i7⟩ := ih (objectiveStep acc o)
    have hstep : (objectiveStep acc o).1.thief = acc.1.thief ∧
        (objectiveStep acc o).1.gameWon = acc.1.gameWon ∧
        (objectiveStep acc o).1.exitOpen = acc.1.exitOpen ∧
        (objectiveStep acc o).1.primaryLootCollected = acc.1.primaryLootCollected ∧
        (objectiveStep acc o).1.primaryLootTotal = acc.1.primaryLootTotal ∧
        (objectiveStep acc o).1.map = acc.1.map ∧
        (objectiveStep acc o).1.gameOver = acc.1.gameOver := by
      unfold objectiveStep
      split <;> exact ⟨rfl, rfl, rfl, rfl, rfl, rfl, rfl⟩
    obtain ⟨j1, j2, j3, j4, j5, j6, j7⟩ := hstep
    exact ⟨i1.trans j1, i2.trans j2, i3.trans j3, i4.trans j4, i5.trans j5,
      i6.trans j6, i7.trans j7⟩

/-- The safe loop never changes the thief, the win/lose flags, the exit
flag, the loot counters, the loot list, or the tile at the thief's new
position `(nx, ny)` (an opened safe is 4-adjacent to it, never on it). -/
theorem safeFold_fst_fields (nx ny : Int) (safes : List Safe)
    (acc : GameState × List Safe) :
    (safes.foldl (safeFoldStep nx ny) acc).1.thief = acc.1.thief ∧
    (safes.foldl (safeFoldStep nx ny) acc).1.gameWon = acc.1.gameWon ∧
    (safes.foldl (safeFoldStep nx ny) acc).1.gameOver = acc.1.gameOver ∧
    (safes.foldl (safeFoldStep nx ny) acc).1.exitOpen = acc.1.exitOpen ∧
    (safes.foldl (safeFoldStep nx ny) acc).1.primaryLootCollected = acc.1.primaryLootCollected ∧
    (safes.foldl (safeFoldStep nx ny) acc).1.primaryLootTotal = acc.1.primaryLootTotal ∧
    (safes.foldl (safeFoldStep nx ny) acc).1.loot = acc.1.loot ∧
    tileAt (safes.foldl (safeFoldStep nx ny) acc).1.map nx ny = tileAt acc.1.map nx ny := by
  induction safes generalizing acc with
  | nil => exact ⟨rfl, rfl, rfl, rfl, rfl, rfl, rfl, rfl⟩
  | cons sf sfs ih =>
    rw [List.foldl_cons]
    obtain ⟨i1, i2, i3, i4, i5, i6, i7, i8⟩ := ih (safeFoldStep nx ny acc sf)
    have hstep : (safeFoldStep nx ny acc sf).1.thief = acc.1.thief ∧
        (safeFoldStep nx ny acc sf).1.gameWon = acc.1.gameWon ∧
        (safeFoldStep nx ny acc sf).1.gameOver = acc.1.gameOver ∧
        (safeFoldStep nx ny acc sf).1.exitOpen = acc.1.exitOpen ∧
        (safeFoldStep nx ny acc sf).1.primaryLootCollected = acc.1.primaryLootCollected ∧
        (safeFoldStep nx ny acc sf).1.primaryLootTotal = acc.1.primaryLootTotal ∧
        (safeFoldStep nx ny acc sf).1.loot = acc.1.loot ∧
        tileAt (safeFoldStep nx ny acc sf).1.map nx ny = tileAt acc.1.map nx ny := by
      unfold safeFoldStep moveSafeStep
      split
      · exact ⟨rfl, rfl, rfl, rfl, rfl, rfl, rfl, rfl⟩
      · dsimp only
        split
        · next hcond =>
          refine ⟨rfl, rfl, rfl, rfl, rfl, rfl, rfl, ?_⟩
          have hadj : (nx - sf.x).natAbs + (ny - sf.y).natAbs = 1 := by
            have := (Bool.and_eq_true _ _).mp hcond
            simpa using this.1
          exact tileAt_setTile_ne _ _ (by omega)
        · exact ⟨rfl, rfl, rfl, rfl, rfl, rfl, rfl, rfl⟩
    obtain ⟨j1, j2, j3, j4, j5, j6, j7, j8⟩ := hstep
    exact ⟨i1.trans j1, i2.trans j2, i3.trans j3, i4.trans j4, i5.trans j5,
      i6.trans j6, i7.trans j7, i8.trans j8⟩

/-- The tripwire stage never changes the thief's position or hp, the
win/lose flags, the exit flag, the loot counters, or the loot list. -/
theorem moveTripwireCheck_frame (s : GameState) (nx ny : Int) :
    (moveTripwireCheck s nx ny).thief.x = s.thief.x ∧
    (moveTripwireCheck s nx ny).thief.y = s.thief.y ∧
    (moveTripwireCheck s nx ny).thief.hp = s.thief.hp ∧
    (moveTripwireCheck s nx ny).gameWon = s.gameWon ∧
    (moveTripwireCheck s nx ny).gameOver = s.gameOver ∧
    (moveTripwireCheck s nx ny).exitOpen = s.exitOpen ∧
    (moveTripwireCheck s nx ny).primaryLootCollected = s.primaryLootCollected ∧
    (moveTripwireCheck s nx ny).primaryLootTotal = s.primaryLootTotal ∧
    (moveTripwireCheck s nx ny).loot = s.loot := by
  unfold moveTripwireCheck armAlarm
  cases s.tripwires.find? (fun t => t.x == nx && t.y == ny && !t.triggered) <;> dsimp only
  · exact ⟨rfl, rfl, rfl, rfl, rfl, rfl, rfl, rfl, rfl⟩
  · split <;> exact ⟨rfl, rfl, rfl, rfl, rfl, rfl, rfl, rfl, rfl⟩

/-- The loot stage never changes the thief's position or hp or the
win/lose flags. -/
theorem moveLootCheck_frame (s : GameState) (nx ny : Int) :
    (moveLootCheck s nx ny).thief.x = s.thief.x ∧
    (moveLootCheck s nx ny).thief.y = s.thief.y ∧
    (moveLootCheck s nx ny).thief.hp = s.thief.hp ∧
    (moveLootCheck s nx ny).gameWon = s.gameWon ∧
    (moveLootCheck s nx ny).gameOver = s.gameOver := by
  unfold moveLootCheck
  cases s.loot.find? (fun l => l.x == nx && l.y == ny && !l.collected) <;> dsimp only
  · exact ⟨rfl, rfl, rfl, rfl, rfl⟩
  · split <;> dsimp only <;> split <;> exact ⟨rfl, rfl, rfl, rfl, rfl⟩

/-- The exit stage never changes the thief or the loss flag. -/
theorem moveExitCheck_frame (s : GameState) (nx ny : Int) :
    (moveExitCheck s nx ny).thief = s.thief ∧
    (moveExitCheck s nx ny).gameOver = s.gameOver := by
  unfold moveExitCheck
  split
  · dsimp only
    split <;>
    · refine ⟨?_, ?_⟩
      · exact (objFold_fst_fields _ _).1
      · exact (objFold_fst_fields _ _).2.2.2.2.2.2
  · exact ⟨rfl, rfl⟩

/-- On a fatal laser contact (invulnerability elapsed, `hp ≤ 1`), the
laser check damages, sets `gameOver`, and reports the early return. -/
theorem moveLaserCheck_fatal (s : GameState) (nx ny : Int)
    (hlaser : s.lasers.find? (fun l => l.x == nx && l.y == ny && l.active) ≠ none)
    (hinv : s.thief.invulnTimer ≤ 0) (hfatal : s.thief.hp ≤ 1) :
    moveLaserCheck s nx ny =
      ({ s with
          thief := { s.thief with hp := s.thief.hp - 1, invulnTimer := 1500 }
          gameOver := true
          sounds := s.sounds ++ ["hit", "gameOver"]
          shakeEvents := s.shakeEvents ++ [Shake.mk 3 300, Shake.mk 8 500] }, true) := by
  unfold moveLaserCheck
  cases h : s.lasers.find? (fun l => l.x == nx && l.y == ny && l.active) with
  | none => exact absurd h hlaser
  | some L =>
    rw [if_pos hinv, if_pos (show (s.thief.hp - 1 : Int) ≤ 0 by omega)]
    simp

/-- On a non-fatal laser contact, the laser check damages and lets the
move continue. -/
theorem moveLaserCheck_nonfatal (s : GameState) (nx ny : Int)
    (hlaser : s.lasers.find? (fun l => l.x == nx && l.y == ny && l.active) ≠ none)
    (hinv : s.thief.invulnTimer ≤ 0) (hsurv : 1 < s.thief.hp) :
    moveLaserCheck s nx ny =
      ({ s with
          thief := { s.thief with hp := s.thief.hp - 1, invulnTimer := 1500 }
          sounds := s.sounds ++ ["hit"]
          shakeEvents := s.shakeEvents ++ [Shake.mk 3 300] }, false) := by
  unfold moveLaserCheck
  cases h : s.lasers.find? (fun l => l.x == nx && l.y == ny && l.active) with
  | none => exact absurd h hlaser
  | some L =>
    rw [if_pos hinv, if_neg (show ¬(s.thief.hp - 1 : Int) ≤ 0 by omega)]

/-- C9: on a move onto a walkable tile holding an active laser, with the
agent vulnerable, the damage is applied before the position update: in
the fatal case (`hp ≤ 1`) the move is cancelled entirely — `gameOver`
is set while the position, loot, tripwires, safes and all other state
stay exactly as before the move — and in the non-fatal case the damage
and the position update both happen. -/
theorem C9_fatal_laser_cancels_move (s : GameState) (dx dy : Int)
    (hover : s.gameOver = false) (hwon : s.gameWon = false)
    (hpick : s.thief.picking = false)
    (hwalk : isWalkable s (s.thief.x + dx) (s.thief.y + dy) = true)
    (hlaser : s.lasers.find? (fun l =>
      l.x == s.thief.x + dx && l.y == s.thief.y + dy && l.active) ≠ none)
    (hinv : s.thief.invulnTimer ≤ 0) :
    (s.thief.hp ≤ 1 →
      moveThief s dx dy =
        { s with
          thief := { s.thief with hp := s.thief.hp - 1, invulnTimer := 1500 }
          gameOver := true
          sounds := s.sounds ++ ["hit", "gameOver"]
          shakeEvents := s.shakeEvents ++ [Shake.mk 3 300, Shake.mk 8 500] }) ∧
    (1 < s.thief.hp →
      (moveThief s dx dy).thief.hp = s.thief.hp - 1 ∧
      (moveThief s dx dy).thief.x = s.thief.x + dx ∧
      (moveThief s dx dy).thief.y = s.thief.y + dy ∧
      (moveThief s dx dy).gameOver = false) := by
  constructor
  · intro hfatal
    unfold moveThief
    rw [if_neg (by simp [hover, hwon, hpick]), if_neg (by simp [hwalk]),
      moveLaserCheck_fatal s _ _ hlaser hinv hfatal]
  · intro hsurv
    have key : ∀ t : GameState,
        (moveExitCheck (moveSafesCheck (moveLootCheck (moveTripwireCheck t
            (s.thief.x + dx) (s.thief.y + dy)) (s.thief.x + dx) (s.thief.y + dy))
            (s.thief.x + dx) (s.thief.y + dy)) (s.thief.x + dx) (s.thief.y + dy)).thief.hp
          = t.thief.hp ∧
        (moveExitCheck (moveSafesCheck (moveLootCheck (moveTripwireCheck t
            (s.thief.x + dx) (s.thief.y + dy)) (s.thief.x + dx) (s.thief.y + dy))
            (s.thief.x + dx) (s.thief.y + dy)) (s.thief.x + dx) (s.thief.y + dy)).thief.x
          = t.thief.x ∧
        (moveExitCheck (moveSafesCheck (moveLootCheck (moveTripwireCheck t
            (s.thief.x + dx) (s.thief.y + dy)) (s.thief.x + dx) (s.thief.y + dy))
            (s.thief.x + dx) (s.thief.y + dy)) (s.thief.x + dx) (s.thief.y + dy)).thief.y
          = t.thief.y ∧
        (moveExitCheck (moveSafesCheck (moveLootCheck (moveTripwireCheck t
            (s.thief.x + dx) (s.thief.y + dy)) (s.thief.x + dx) (s.thief.y + dy))
            (s.thief.x + dx) (s.thief.y + dy)) (s.thief.x + dx) (s.thief.y + dy)).gameOver
          = t.gameOver := by
      intro t
      obtain ⟨t1, t2, t3, _, t5, _, _, _, _⟩ :=
        moveTripwireCheck_frame t (s.thief.x + dx) (s.thief.y + dy)
      obtain ⟨l1, l2, l3, _, l5⟩ := moveLootCheck_frame
        (moveTripwireCheck t (s.thief.x + dx) (s.thief.y + dy))
        (s.thief.x + dx) (s.thief.y + dy)
      have hs := safeFold_fst_fields (s.thief.x + dx) (s.thief.y + dy)
        (moveLootCheck (moveTripwireCheck t (s.thief.x + dx) (s.thief.y + dy))
          (s.thief.x + dx) (s.thief.y + dy)).safes
        ((moveLootCheck (moveTripwireCheck t (s.thief.x + dx) (s.thief.y + dy))
          (s.thief.x + dx) (s.thief.y + dy)), [])
      have s1 : (moveSafesCheck (moveLootCheck (moveTripwireCheck t
          (s.thief.x + dx) (s.thief.y + dy)) (s.thief.x + dx) (s.thief.y + dy))
          (s.thief.x + dx) (s.thief.y + dy)).thief =
          (moveLootCheck (moveTripwireCheck t (s.thief.x + dx) (s.thief.y + dy))
          (s.thief.x + dx) (s.thief.y + dy)).thief := by
        unfold moveSafesCheck
        exact hs.1
      have s2 : (moveSafesCheck (moveLootCheck (moveTripwireCheck t
          (s.thief.x + dx) (s.thief.y + dy)) (s.thief.x + dx) (s.thief.y + dy))
          (s.thief.x + dx) (s.thief.y + dy)).gameOver =
          (moveLootCheck (moveTripwireCheck t (s.thief.x + dx) (s.thief.y + dy))
          (s.thief.x + dx) (s.thief.y + dy)).gameOver := by
        unfold moveSafesCheck
        exact hs.2.2.1
      obtain ⟨x1, x2⟩ := moveExitCheck_frame (moveSafesCheck (moveLootCheck
        (moveTripwireCheck t (s.thief.x + dx) (s.thief.y + dy))
        (s.thief.x + dx) (s.thief.y + dy)) (s.thief.x + dx) (s.thief.y + dy))
        (s.thief.x + dx) (s.thief.y + dy)
      refine ⟨?_, ?_, ?_, ?_⟩
      · rw [x1, s1, l3, t3]
      · rw [x1, s1, l1, t1]
      · rw [x1, s1, l2, t2]
      · rw [x2, s2, l5, t5]
    unfold moveThief
    rw [if_neg (by simp [hover, hwon, hpick]), if_neg (by simp [hwalk]),
      moveLaserCheck_nonfatal s _ _ hlaser hinv hsurv]
    dsimp only
    obtain ⟨k1, k2, k3, k4⟩ := key
      { s with
        thief := { s.thief with
          hp := s.thief.hp - 1
          invulnTimer := 1500
          x := s.thief.x + dx
          y := s.thief.y + dy }
        sounds := s.sounds ++ ["hit"] ++ ["move"]
        shakeEvents := s.shakeEvents ++ [Shake.mk 3 300] }
    exact ⟨k1, k2, k3, k4.trans hover⟩

/-- Witness for C9: at `S9` (1 hp, active laser on the destination) the
eastward move kills, cancels the move (position still (1, 1)) and sets
`gameOver`. -/
theorem C9_witness :
    (moveThief S9 1 0).gameOver = true ∧
    (moveThief S9 1 0).thief.x = 1 ∧
    (moveThief S9 1 0).thief.y = 1 ∧
    (moveThief S9 1 0).thief.hp = 0 := by
  rw [(C9_fatal_laser_cancels_move S9 1 0 (by decide) (by decide) (by decide) (by decide)
    (by decide) (by decide)).1 (by decide)]
  refine ⟨rfl, rfl, rfl, by decide⟩

/-- With the invulnerability window open the vision/collision block of a
guard step never changes the thief's hp or invulnerability timer. -/
theorem guardVisionDamage_invuln (s : GameState) (g : Guard)
    (hinv : 0 < s.thief.invulnTimer) :
    (guardVisionDamage s g).1.thief.hp = s.thief.hp ∧
    (guardVisionDamage s g).1.thief.invulnTimer = s.thief.invulnTimer := by
  have hcol : ∀ (s' : GameState) (g' : Guard),
      s'.thief.invulnTimer = s.thief.invulnTimer → guardCollide s' g' = (s', g') := by
    intro s' g' h
    unfold guardCollide
    rw [if_neg]
    intro hcond
    simp only [Bool.and_eq_true, decide_eq_true_eq] at hcond
    omega
  unfold guardVisionDamage
  split
  · exact ⟨rfl, rfl⟩
  · dsimp only
    split_ifs <;>
      first
        | (rw [hcol s _ rfl]; exact ⟨rfl, rfl⟩)
        | (rw [hcol (armAlarm s ("SPOTTED!")) _ rfl]; exact ⟨rfl, rfl⟩)

/-- With the invulnerability window open a whole guard step never
changes the thief's hp or invulnerability timer. -/
theorem guardStep_invuln (s : GameState) (dt : Int) (g : Guard)
    (hinv : 0 < s.thief.invulnTimer) :
    (guardStep s dt g).1.thief.hp = s.thief.hp ∧
    (guardStep s dt g).1.thief.invulnTimer = s.thief.invulnTimer := by
  unfold guardStep
  split
  · dsimp only
    split <;> exact ⟨rfl, rfl⟩
  · dsimp only
    repeat' split
    all_goals first
      | exact ⟨rfl, rfl⟩
      | exact guardVisionDamage_invuln s _ hinv

/-- With the invulnerability window open the guard loop never changes
the thief's hp or invulnerability timer. -/
theorem guardFold_invuln (dt : Int) (gs : List Guard) (acc : GameState × List Guard)
    (hinv : 0 < acc.1.thief.invulnTimer) :
    (gs.foldl (guardFoldStep dt) acc).1.thief.hp = acc.1.thief.hp ∧
    (gs.foldl (guardFoldStep dt) acc).1.thief.invulnTimer = acc.1.thief.invulnTimer := by
  induction gs generalizing acc with
  | nil => exact ⟨rfl, rfl⟩
  | cons g gs ih =>
    rw [List.foldl_cons]
    obtain ⟨j1, j2⟩ := guardStep_invuln acc.1 dt g hinv
    obtain ⟨i1, i2⟩ := ih (guardFoldStep dt acc g) (by
      show 0 < (guardStep acc.1 dt g).1.thief.invulnTimer
      rw [j2]; exact hinv)
    exact ⟨i1.trans j1, i2.trans j2⟩

/-- A camera step never changes the thief's hp or invulnerability
timer. -/
theorem cameraStep_thief (s : GameState) (dt : Int) (cam : Camera) :
    (cameraStep s dt cam).1.thief.hp = s.thief.hp ∧
    (cameraStep s dt cam).1.thief.invulnTimer = s.thief.invulnTimer := by
  unfold cameraStep armAlarm
  split
  · exact ⟨rfl, rfl⟩
  · dsimp only
    split_ifs <;> exact ⟨rfl, rfl⟩

/-- The camera loop never changes the thief's hp or invulnerability
timer. -/
theorem cameraFold_thief (dt : Int) (cams : List Camera) (acc : GameState × List Camera) :
    (cams.foldl (cameraFoldStep dt) acc).1.thief.hp = acc.1.thief.hp ∧
    (cams.foldl (cameraFoldStep dt) acc).1.thief.invulnTimer = acc.1.thief.invulnTimer := by
  induction cams generalizing acc with
  | nil => exact ⟨rfl, rfl⟩
  | cons c cs ih =>
    rw [List.foldl_cons]
    obtain ⟨j1, j2⟩ := cameraStep_thief acc.1 dt c
    obtain ⟨i1, i2⟩ := ih (cameraFoldStep dt acc c)
    exact ⟨i1.trans j1, i2.trans j2⟩

/-- With the invulnerability window open a laser step never changes the
thief's hp or invulnerability timer. -/
theorem laserStep_invuln (dt : Int) (s : GameState) (l : Laser)
    (hinv : 0 < s.thief.invulnTimer) :
    (laserStep dt s l).1.thief.hp = s.thief.hp ∧
    (laserStep dt s l).1.thief.invulnTimer = s.thief.invulnTimer := by
  unfold laserStep
  dsimp only
  split_ifs <;> first
    | exact ⟨rfl, rfl⟩
    | (exfalso; simp_all <;> omega)

/-- With the invulnerability window open the laser loop never changes
the thief's hp or invulnerability timer. -/
theorem laserFold_invuln (dt : Int) (ls : List Laser) (acc : GameState × List Laser)
    (hinv : 0 < acc.1.thief.invulnTimer) :
    (ls.foldl (laserFoldStep dt) acc).1.thief.hp = acc.1.thief.hp ∧
    (ls.foldl (laserFoldStep dt) acc).1.thief.invulnTimer = acc.1.thief.invulnTimer := by
  induction ls generalizing acc with
  | nil => exact ⟨rfl, rfl⟩
  | cons l ls ih =>
    rw [List.foldl_cons]
    obtain ⟨j1, j2⟩ := laserStep_invuln dt acc.1 l hinv
    obtain ⟨i1, i2⟩ := ih (laserFoldStep dt acc l) (by
      show 0 < (laserStep dt acc.1 l).1.thief.invulnTimer
      rw [j2]; exact hinv)
    exact ⟨i1.trans j1, i2.trans j2⟩

/-- With the invulnerability window open the laser check of `moveThief`
is a no-op. -/
theorem moveLaserCheck_invuln (s : GameState) (nx ny : Int)
    (hinv : 0 < s.thief.invulnTimer) :
    moveLaserCheck s nx ny = (s, false) := by
  unfold moveLaserCheck
  cases s.lasers.find? (fun l => l.x == nx && l.y == ny && l.active) with
  | none => rfl
  | some L =>
    dsimp only
    rw [if_neg (by omega)]

/-- C5 counterexample: alarm expiry damages the agent even while the
invulnerability timer is positive, refuting "no damage source (guard
contact, laser contact, or alarm expiry) reduces the agent's hp until
the timer expires". -/
theorem C5_counterexample_alarm_ignores_invuln :
    0 < S5.thief.invulnTimer ∧ (updateAlarm S5 100).thief.hp < S5.thief.hp := by
  decide

/-- C5 (amended): while the invulnerability timer is positive, neither
guard contact (`updateGuards`), nor laser contact (`updateLasers` or a
move onto an active laser in `moveThief`) reduces the agent's hp — but
alarm expiry is *not* gated on invulnerability. -/
theorem C5_amended_invuln_blocks_guard_and_laser_damage
    (s : GameState) (dt dx dy : Int) (hinv : 0 < s.thief.invulnTimer) :
    (updateGuards s dt).thief.hp = s.thief.hp ∧
    (updateLasers s dt).thief.hp = s.thief.hp ∧
    (moveThief s dx dy).thief.hp = s.thief.hp := by
  refine ⟨?_, ?_, ?_⟩
  · unfold updateGuards
    obtain ⟨g1, g2⟩ := guardFold_invuln dt s.guards (s, []) hinv
    obtain ⟨c1, _⟩ := cameraFold_thief dt
      ((s.guards.foldl (guardFoldStep dt) (s, [])).1).cameras
      ({ (s.guards.foldl (guardFoldStep dt) (s, [])).1 with
          guards := (s.guards.foldl (guardFoldStep dt) (s, [])).2 }, [])
    exact c1.trans g1
  · unfold updateLasers
    exact (laserFold_invuln dt s.lasers (s, []) hinv).1
  · unfold moveThief
    split
    · rfl
    · dsimp only
      split
      · rfl
      · rw [moveLaserCheck_invuln s _ _ hinv]
        dsimp only
        obtain ⟨t1, t2, t3, _, _, _, _, _, _⟩ := moveTripwireCheck_frame
          { s with
            thief := { s.thief with x := s.thief.x + dx, y := s.thief.y + dy }
            sounds := s.sounds ++ ["move"] } (s.thief.x + dx) (s.thief.y + dy)
        obtain ⟨l1, l2, l3, _, _⟩ := moveLootCheck_frame
          (moveTripwireCheck { s with
            thief := { s.thief with x := s.thief.x + dx, y := s.thief.y + dy }
            sounds := s.sounds ++ ["move"] } (s.thief.x + dx) (s.thief.y + dy))
          (s.thief.x + dx) (s.thief.y + dy)
        have hs : (moveSafesCheck (moveLootCheck (moveTripwireCheck { s with
            thief := { s.thief with x := s.thief.x + dx, y := s.thief.y + dy }
            sounds := s.sounds ++ ["move"] } (s.thief.x + dx) (s.thief.y + dy))
            (s.thief.x + dx) (s.thief.y + dy)) (s.thief.x + dx) (s.thief.y + dy)).thief =
            (moveLootCheck (moveTripwireCheck { s with
            thief := { s.thief with x := s.thief.x + dx, y := s.thief.y + dy }
            sounds := s.sounds ++ ["move"] } (s.thief.x + dx) (s.thief.y + dy))
            (s.thief.x + dx) (s.thief.y + dy)).thief := by
          unfold moveSafesCheck
          exact (safeFold_fst_fields _ _ _ _).1
        obtain ⟨x1, _⟩ := moveExitCheck_frame (moveSafesCheck (moveLootCheck
          (moveTripwireCheck { s with
            thief := { s.thief with x := s.thief.x + dx, y := s.thief.y + dy }
            sounds := s.sounds ++ ["move"] } (s.thief.x + dx) (s.thief.y + dy))
          (s.thief.x + dx) (s.thief.y + dy)) (s.thief.x + dx) (s.thief.y + dy))
          (s.thief.x + dx) (s.thief.y + dy)
        rw [x1, hs, l3, t3]

/-- Witness for the amended C5 at `S5` (invulnerability window open). -/
theorem C5_amended_witness :
    (updateGuards S5 100).thief.hp = S5.thief.hp ∧
    (updateLasers S5 100).thief.hp = S5.thief.hp ∧
    (moveThief S5 1 0).thief.hp = S5.thief.hp :=
  C5_amended_invuln_blocks_guard_and_laser_damage S5 100 1 0 (by decide)

/-- Guard collision damage never increases hp. -/
theorem guardCollide_hp_le (s : GameState) (g : Guard) :
    (guardCollide s g).1.thief.hp ≤ s.thief.hp := by
  unfold guardCollide
  dsimp only
  split_ifs <;> (try dsimp only) <;> omega

/-- The guard vision/collision block never increases hp. -/
theorem guardVisionDamage_hp_le (s : GameState) (g : Guard) :
    (guardVisionDamage s g).1.thief.hp ≤ s.thief.hp := by
  unfold guardVisionDamage
  split
  · exact le_refl _
  · dsimp only
    split_ifs <;> exact guardCollide_hp_le _ _

/-- A guard step never increases hp. -/
theorem guardStep_hp_le (s : GameState) (dt : Int) (g : Guard) :
    (guardStep s dt g).1.thief.hp ≤ s.thief.hp := by
  unfold guardStep
  split
  · dsimp only
    split <;> exact le_refl _
  · dsimp only
    repeat' split
    all_goals first
      | exact le_refl _
      | exact guardVisionDamage_hp_le _ _

/-- The guard loop never increases hp. -/
theorem guardFold_hp_le (dt : Int) (gs : List Guard) (acc : GameState × List Guard) :
    (gs.foldl (guardFoldStep dt) acc).1.thief.hp ≤ acc.1.thief.hp := by
  induction gs generalizing acc with
  | nil => exact le_refl _
  | cons g gs ih =>
    rw [List.foldl_cons]
    exact (ih (guardFoldStep dt acc g)).trans (guardStep_hp_le acc.1 dt g)

/-- A laser step never increases hp. -/
theorem laserStep_hp_le (dt : Int) (s : GameState) (l : Laser) :
    (laserStep dt s l).1.thief.hp ≤ s.thief.hp := by
  unfold laserStep
  dsimp only
  split_ifs <;> (try dsimp only) <;> omega

/-- The laser loop never increases hp. -/
theorem laserFold_hp_le (dt : Int) (ls : List Laser) (acc : GameState × List Laser) :
    (ls.foldl (laserFoldStep dt) acc).1.thief.hp ≤ acc.1.thief.hp := by
  induction ls generalizing acc with
  | nil => exact le_refl _
  | cons l ls ih =>
    rw [List.foldl_cons]
    exact (ih (laserFoldStep dt acc l)).trans (laserStep_hp_le dt acc.1 l)

/-- `updateAlarm` never increases hp. -/
theorem updateAlarm_hp_le (s : GameState) (dt : Int) :
    (updateAlarm s dt).thief.hp ≤ s.thief.hp := by
  unfold updateAlarm
  dsimp only
  split_ifs <;> (try dsimp only) <;> omega

/-- `updatePickLock` never changes hp. -/
theorem updatePickLock_hp (s : GameState) (dt : Int) :
    (updatePickLock s dt).thief.hp = s.thief.hp := by
  unfold updatePickLock
  dsimp only
  repeat' split
  all_goals rfl

/-- `updateDroneCharge` never changes hp. -/
theorem updateDroneCharge_hp (s : GameState) (dt : Int) :
    (updateDroneCharge s dt).thief.hp = s.thief.hp := by
  unfold updateDroneCharge
  dsimp only
  repeat' split
  all_goals rfl

/-- `updateInvuln` never changes hp. -/
theorem updateInvuln_hp (s : GameState) (dt : Int) :
    (updateInvuln s dt).thief.hp = s.thief.hp := by
  unfold updateInvuln
  split <;> rfl

/-- `updateEffects` never changes hp. -/
theorem updateEffects_hp (s : GameState) (dt : Int) :
    (updateEffects s dt).thief.hp = s.thief.hp := by
  unfold updateEffects updateEffectsCooldown updateEffectsSprint updateEffectsPing
  dsimp only
  repeat' split
  all_goals rfl

/-- `updateGuards` never increases hp. -/
theorem updateGuards_hp_le (s : GameState) (dt : Int) :
    (updateGuards s dt).thief.hp ≤ s.thief.hp := by
  unfold updateGuards
  dsimp only
  refine le_trans (le_of_eq ?_) (guardFold_hp_le dt s.guards (s, []))
  exact (cameraFold_thief dt _ _).1

/-- `updateLasers` never increases hp. -/
theorem updateLasers_hp_le (s : GameState) (dt : Int) :
    (updateLasers s dt).thief.hp ≤ s.thief.hp := by
  unfold updateLasers
  exact laserFold_hp_le dt s.lasers (s, [])

/-- C2 counterexample: from a reachable-shaped live state (1 hp, guard
on the thief's tile, alarm 100 ms from expiry) one tick first applies
the guard-contact kill (hp 0, `gameOver` set) and then still runs the
alarm expiry, which damages again: hp ends at −1 and a second
'hit'/'gameOver' pair is recorded after the terminal state was set —
refuting "hp never goes negative" and "no further damage events or
state mutation are recorded during that same tick". -/
theorem C2_counterexample_hp_goes_negative :
    (tickRoom { gameState := some S2, paused := false } 100).gameState.map
      (fun s => (s.thief.hp, s.gameOver, s.sounds)) =
      some (-1, true, ["hit", "gameOver", "hit", "gameOver"]) := by
  decide

/-- C2 (amended): hp is never *increased* by a tick; once `gameOver` is
set, every subsequent `tickRoom` call leaves the room unchanged (no
further damage events across ticks); and the damage site that brings hp
to ≤ 0 sets `gameOver` immediately (shown here for alarm expiry) — but
within the same tick later phases still run, so hp can drop below zero
(see the counterexample). -/
theorem C2_amended_terminal_tick_frozen_and_hp_monotone
    (room : Room) (dt : Int) (st : GameState) (h : room.gameState = some st) :
    (st.gameOver = true → tickRoom room dt = room) ∧
    (∀ st', (tickRoom room dt).gameState = some st' → st'.thief.hp ≤ st.thief.hp) ∧
    (st.alarmActive = true → st.alarmTimer - dt ≤ 0 → st.thief.hp ≤ 1 →
      (updateAlarm st dt).gameOver = true ∧
      (updateAlarm st dt).thief.hp = st.thief.hp - 1) := by
  refine ⟨?_, ?_, ?_⟩
  · intro hgo
    unfold tickRoom
    rw [h]
    dsimp only
    rw [if_pos (by simp [hgo])]
  · intro st' h'
    unfold tickRoom at h'
    rw [h] at h'
    dsimp only at h'
    split at h'
    · rw [h] at h'
      obtain rfl := Option.some.inj h'
      exact le_refl _
    · dsimp only at h'
      obtain rfl := Option.some.inj h'
      have hsound : ∀ t : GameState,
          (if t.alarmActive && (t.timer.fdiv 500) % 2 == 0 && ((t.timer - dt).fdiv 500) % 2 != 0
            then { t with sounds := t.sounds ++ ["alarm"] } else t).thief.hp = t.thief.hp := by
        intro t
        split <;> rfl
      rw [hsound, updateEffects_hp]
      refine le_trans (updateLasers_hp_le _ _) ?_
      rw [updateInvuln_hp, updateDroneCharge_hp]
      refine le_trans (updateAlarm_hp_le _ _) ?_
      refine le_trans (updateGuards_hp_le _ _) ?_
      rw [updatePickLock_hp]
  · intro hact hexp hfatal
    unfold updateAlarm
    rw [if_neg (by simp [hact]), if_pos (show st.alarmTimer - dt ≤ 0 from hexp),
      if_pos (show st.thief.hp - 1 ≤ 0 by omega)]
    exact ⟨rfl, rfl⟩

/-- Witness for the amended C2: a finished room is left unchanged by a
tick, and the alarm-expiry damage at 1 hp sets `gameOver` at once. -/
theorem C2_amended_witness :
    (tickRoom { gameState := some S2over, paused := false } 100 =
      { gameState := some S2over, paused := false }) ∧
    (updateAlarm S2 100).gameOver = true ∧
    (updateAlarm S2 100).thief.hp = S2.thief.hp - 1 := by
  refine ⟨(C2_amended_terminal_tick_frozen_and_hp_monotone _ 100 S2over rfl).1 (by decide), ?_⟩
  exact (C2_amended_terminal_tick_frozen_and_hp_monotone
    { gameState := some S2, paused := false } 100 S2 rfl).2.2 (by decide) (by decide) (by decide)

/-- C7 counterexample: the alert timer only decays on ticks where the
guard's movement timer matures (every *second* 100 ms tick at the Alert
interval of 150 ms), so after exactly 10000 ms of ticks with no
re-detection the guard is still fully alerted with 5000 ms left —
refuting "if 10000 ms of simulated ticks elapse with no re-detection,
the guard reverts to Patrol". -/
theorem C7_counterexample_still_alert_after_10000ms :
    ((iterGuards 100 S7).guards.map (fun g => (g.alertLevel, g.alertTimer))) =
      [(2, 5000)] := by
  set_option maxRecDepth 16000 in decide

/-- C7 (amended): the decay accrues 100 ms per matured movement step, so
the same guard reverts to Patrol only after 20000 ms of 100 ms ticks —
and then indeed with alert level 0 and cleared last-known-target and
investigate-target. -/
theorem C7_amended_reverts_after_20000ms :
    ((iterGuards 200 S7).guards.map
      (fun g => (g.alertLevel, g.alertTimer, g.lastKnownThief, g.investigateTarget))) =
      [(0, 0, none, none)] := by
  set_option maxRecDepth 16000 in decide

/-- If the attraction phase leaves a guard at Alert, either it already
was at Alert or a decoy lies within Manhattan distance 6 (noisemakers
only ever set Suspicious). -/
theorem guardAttract_alert_two (s : GameState) (g : Guard)
    (h : (guardAttract s g).alertLevel = 2) :
    g.alertLevel = 2 ∨ ∃ d ∈ s.decoys, (d.x - g.x).natAbs + (d.y - g.y).natAbs ≤ 6 := by
  unfold guardAttract at h
  cases hn : s.noisemakers.find? (fun n => (n.x - g.x).natAbs + (n.y - g.y).natAbs ≤ 8) with
  | some noise =>
    rw [hn] at h
    dsimp only at h
    exact absurd h (by decide)
  | none =>
    rw [hn] at h
    dsimp only at h
    cases hd : s.decoys.find? (fun d => (d.x - g.x).natAbs + (d.y - g.y).natAbs ≤ 6) with
    | some d =>
      right
      refine ⟨d, List.mem_of_find?_eq_some hd, ?_⟩
      have := List.find?_some hd
      simpa using this
    | none =>
      rw [hd] at h
      dsimp only at h
      exact Or.inl h

/-- The movement attempt never changes the alert level. -/
theorem guardMove_alertLevel (s : GameState) (g : Guard) :
    (guardMove s g).1.alertLevel = g.alertLevel := by
  unfold guardMove
  dsimp only
  split_ifs <;> rfl

/-- The post-move bookkeeping never changes the alert level. -/
theorem guardPostMove_alertLevel (g : Guard) (target : Pos) (moved : Bool) :
    (guardPostMove g target moved).alertLevel = g.alertLevel := by
  unfold guardPostMove
  dsimp only
  repeat' split
  all_goals rfl

/-- Alert decay never raises the alert level: a guard at Alert after
decay was at Alert before. -/
theorem guardDecay_alert_two (g : Guard) (dt : Int)
    (h : (guardDecay g dt).alertLevel = 2) : g.alertLevel = 2 := by
  unfold guardDecay at h
  dsimp only at h
  split_ifs at h <;> (try dsimp only at h) <;>
    first | exact h | exact absurd h (by decide)

/-- Collision damage leaves the guard record unchanged. -/
theorem guardCollide_snd (s : GameState) (g : Guard) : (guardCollide s g).2 = g := by
  unfold guardCollide
  dsimp only
  split_ifs <;> rfl

/-- The vision block never moves or turns the guard. -/
theorem guardVisionDamage_pos (s : GameState) (g : Guard) :
    (guardVisionDamage s g).2.x = g.x ∧ (guardVisionDamage s g).2.y = g.y ∧
    (guardVisionDamage s g).2.dir = g.dir := by
  unfold guardVisionDamage
  split
  · exact ⟨rfl, rfl, rfl⟩
  · dsimp only
    split_ifs <;> rw [guardCollide_snd] <;> exact ⟨rfl, rfl, rfl⟩

/-- If the vision block leaves a guard at Alert, either it already was
at Alert or the sight check at its position succeeded (sprint noise only
ever sets Suspicious). -/
theorem guardVisionDamage_alert_two (s : GameState) (g : Guard)
    (h : (guardVisionDamage s g).2.alertLevel = 2) :
    g.alertLevel = 2 ∨ canSeeThief s g.x g.y g.dir g.alertLevel = true := by
  unfold guardVisionDamage at h
  split at h
  · exact Or.inl h
  · dsimp only at h
    by_cases hcs : canSeeThief s g.x g.y g.dir g.alertLevel = true
    · exact Or.inr hcs
    · left
      rw [if_neg hcs] at h
      split_ifs at h <;> rw [guardCollide_snd] at h <;> (try dsimp only at h) <;>
        first | exact h | exact absurd h (by decide)

/-- A vision raycast that hits within `n` steps also hits within any
`m ≥ n` steps. -/
theorem rayHitsThief_mono (s : GameState) (dx dy : Int) :
    ∀ (n m : Nat) (x y : Int), n ≤ m →
      rayHitsThief s x y dx dy n = true → rayHitsThief s x y dx dy m = true := by
  intro n
  induction n with
  | zero => intro m x y _ h; exact absurd h (by simp [rayHitsThief])
  | succ k ih =>
    intro m x y hle h
    obtain ⟨m', rfl⟩ : ∃ m', m = m' + 1 := ⟨m - 1, by omega⟩
    unfold rayHitsThief at h ⊢
    dsimp only at h ⊢
    by_cases hb : isBlockedForVision s (x + dx) (y + dy) = true
    · rw [if_pos hb] at h
      exact absurd h (by decide)
    · rw [if_neg hb] at h ⊢
      by_cases ht : ((x + dx) == s.thief.x && (y + dy) == s.thief.y) = true
      · rw [if_pos ht]
      · rw [if_neg ht] at h ⊢
        exact ih m' _ _ (by omega) h

/-- The sight check is monotone in the alert level: whatever is seen at
some alert level is seen at Alert (longer range, peripheral enabled). -/
theorem canSeeThief_two_of (s : GameState) (x y : Int) (dir l : Nat)
    (h : canSeeThief s x y dir l = true) : canSeeThief s x y dir 2 = true := by
  by_cases hl : 1 ≤ l
  · have heq : canSeeThief s x y dir l = canSeeThief s x y dir 2 := by
      unfold canSeeThief
      dsimp only
      rw [if_pos (show l ≥ 1 from hl), if_pos (show (2 : Nat) ≥ 1 by decide),
        decide_eq_true (show l ≥ 1 from hl),
        decide_eq_true (show (2 : Nat) ≥ 1 by decide)]
    rw [← heq]
    exact h
  · have hl0 : l = 0 := by omega
    subst hl0
    unfold canSeeThief at h ⊢
    dsimp only at h ⊢
    have h3 : (rayHitsThief s x y (dirVec dir).x (dirVec dir).y 3
        || (x == s.thief.x && y == s.thief.y)) = true := by
      simpa [show ¬ ((0 : Nat) ≥ 1) by decide] using h
    rcases (Bool.or_eq_true _ _).mp h3 with hray | hcoll
    · have h5 := rayHitsThief_mono s (dirVec dir).x (dirVec dir).y 3 5 x y (by omega) hray
      simp [show ((2 : Nat) ≥ 1) by decide, h5]
    · simp [hcoll]

/-- C6: a guard at Patrol (alert level 0) that ends a single guard step
at Alert (level 2) did so only because a decoy lay within its Manhattan
perception radius 6, or because the sight check — front raycast,
peripheral vision, or direct tile collision, all folded into
`canSeeThief` — succeeded at the guard's resulting position; noisemakers
and sprint noise never take a guard from 0 to 2 in one step. -/
theorem C6_patrol_to_alert_only_by_decoy_or_sight (s : GameState) (dt : Int) (g : Guard)
    (h0 : g.alertLevel = 0)
    (h2 : (guardStep s dt g).2.alertLevel = 2) :
    (∃ d ∈ s.decoys, (d.x - g.x).natAbs + (d.y - g.y).natAbs ≤ 6) ∨
      canSeeThief s (guardStep s dt g).2.x (guardStep s dt g).2.y
        (guardStep s dt g).2.dir 2 = true := by
  by_cases hf : g.frozen = true
  · exfalso
    unfold guardStep at h2
    rw [if_pos hf] at h2
    dsimp only at h2
    split_ifs at h2 <;> (try dsimp only at h2) <;> rw [h0] at h2 <;>
      exact absurd h2 (by decide)
  · unfold guardStep at h2 ⊢
    rw [if_neg hf] at h2 ⊢
    dsimp only at h2 ⊢
    rw [h0] at h2 ⊢
    rw [if_neg (show ¬ (((0 : Nat) == 1) = true) by decide),
      if_neg (show ¬ (((0 : Nat) == 2) = true) by decide)] at h2 ⊢
    by_cases hm : 10 * (g.moveTimer + dt) < 10 * g.speed
    · exfalso
      rw [if_pos hm] at h2
      dsimp only at h2
      exact absurd h2 (by decide)
    · rw [if_neg hm] at h2 ⊢
      rcases guardVisionDamage_alert_two s _ h2 with halert | hsee
      · have hdec := guardDecay_alert_two _ dt halert
        rw [guardPostMove_alertLevel, guardMove_alertLevel] at hdec
        rcases guardAttract_alert_two s _ hdec with hzero | ⟨d, hdm, hdist⟩
        · exfalso
          dsimp only at hzero
          exact absurd hzero (by decide)
        · exact Or.inl ⟨d, hdm, by simpa using hdist⟩
      · right
        obtain ⟨hx, hy, hdir⟩ := guardVisionDamage_pos s _
        rw [hx, hy, hdir]
        exact canSeeThief_two_of s _ _ _ _ hsee

/-- C6 witness: the Patrol guard of `S6` near a decoy, stepped with
`dt = 300` so its movement timer matures, satisfies the theorem's
hypotheses, and the decoy disjunct holds. -/
theorem C6_witness :
    G6.alertLevel = 0 ∧ (guardStep S6 300 G6).2.alertLevel = 2 ∧
      ((∃ d ∈ S6.decoys, (d.x - G6.x).natAbs + (d.y - G6.y).natAbs ≤ 6) ∨
        canSeeThief S6 (guardStep S6 300 G6).2.x (guardStep S6 300 G6).2.y
          (guardStep S6 300 G6).2.dir 2 = true) :=
  ⟨by decide, by decide,
    C6_patrol_to_alert_only_by_decoy_or_sight S6 300 G6 (by decide) (by decide)⟩

/-- The laser check never changes the exit flag or the loot ledger. -/
theorem moveLaserCheck_fst_fields (s : GameState) (nx ny : Int) :
    (moveLaserCheck s nx ny).1.exitOpen = s.exitOpen ∧
    (moveLaserCheck s nx ny).1.primaryLootCollected = s.primaryLootCollected ∧
    (moveLaserCheck s nx ny).1.primaryLootTotal = s.primaryLootTotal := by
  unfold moveLaserCheck
  cases s.lasers.find? (fun l => l.x == nx && l.y == ny && l.active) <;> dsimp only
  · exact ⟨rfl, rfl, rfl⟩
  · split_ifs <;> exact ⟨rfl, rfl, rfl⟩

/-- With no untriggered tripwire at the destination, the tripwire stage
is the identity. -/
theorem moveTripwireCheck_none (s : GameState) (nx ny : Int)
    (h : s.tripwires.find? (fun t => t.x == nx && t.y == ny && !t.triggered) = none) :
    moveTripwireCheck s nx ny = s := by
  unfold moveTripwireCheck
  rw [h]

/-- With no uncollected loot at the destination, the loot stage is the
identity. -/
theorem moveLootCheck_none (s : GameState) (nx ny : Int)
    (h : s.loot.find? (fun l => l.x == nx && l.y == ny && !l.collected) = none) :
    moveLootCheck s nx ny = s := by
  unfold moveLootCheck
  rw [h]

/-- The loot stage preserves the ledger invariant: if the exit flag
agrees with `primaryLootCollected ≥ primaryLootTotal` before a pickup,
it still agrees after (the unlock branch re-runs the comparison on every
pickup). -/
theorem moveLootCheck_invariant (s : GameState) (nx ny : Int)
    (hinv : s.exitOpen = true ↔ s.primaryLootCollected ≥ s.primaryLootTotal) :
    ((moveLootCheck s nx ny).exitOpen = true ↔
      (moveLootCheck s nx ny).primaryLootCollected ≥
        (moveLootCheck s nx ny).primaryLootTotal) := by
  unfold moveLootCheck
  cases s.loot.find? (fun l => l.x == nx && l.y == ny && !l.collected) with
  | none => exact hinv
  | some lootItem =>
    dsimp only
    split
    · dsimp only
      split
      · dsimp only
        constructor
        · intro _
          assumption
        · intro _
          rfl
      · dsimp only
        constructor
        · intro he
          exact absurd (hinv.mp he) (by omega)
        · intro hge
          exact absurd hge (by assumption)
    · dsimp only
      split
      · dsimp only
        constructor
        · intro _
          assumption
        · intro _
          rfl
      · dsimp only
        constructor
        · intro he
          exact absurd (hinv.mp he) (by assumption)
        · intro hge
          exact absurd hge (by assumption)

/-- A set exit flag survives the loot stage (the branch only ever sets
it). -/
theorem moveLootCheck_exitOpen_mono (s : GameState) (nx ny : Int)
    (h : s.exitOpen = true) : (moveLootCheck s nx ny).exitOpen = true := by
  unfold moveLootCheck
  cases s.loot.find? (fun l => l.x == nx && l.y == ny && !l.collected) <;> dsimp only
  · exact h
  · split <;> dsimp only <;> split <;> (try rfl) <;> exact h

/-- The safe loop never changes the win/exit flags, the loot ledger, or
the destination tile (it only carves open safes, which sit away from the
destination when they open). -/
theorem moveSafesCheck_fields (s : GameState) (nx ny : Int) :
    (moveSafesCheck s nx ny).gameWon = s.gameWon ∧
    (moveSafesCheck s nx ny).exitOpen = s.exitOpen ∧
    (moveSafesCheck s nx ny).primaryLootCollected = s.primaryLootCollected ∧
    (moveSafesCheck s nx ny).primaryLootTotal = s.primaryLootTotal ∧
    tileAt (moveSafesCheck s nx ny).map nx ny = tileAt s.map nx ny := by
  unfold moveSafesCheck
  dsimp only
  obtain ⟨_, h2, _, h4, h5, h6, _, h8⟩ := safeFold_fst_fields nx ny s.safes (s, [])
  exact ⟨h2, h4, h5, h6, h8⟩

/-- The exit stage never changes the exit flag or the loot ledger. -/
theorem moveExitCheck_fields (s : GameState) (nx ny : Int) :
    (moveExitCheck s nx ny).exitOpen = s.exitOpen ∧
    (moveExitCheck s nx ny).primaryLootCollected = s.primaryLootCollected ∧
    (moveExitCheck s nx ny).primaryLootTotal = s.primaryLootTotal := by
  unfold moveExitCheck
  split
  · dsimp only
    split <;>
      exact ⟨(objFold_fst_fields _ _).2.2.1, (objFold_fst_fields _ _).2.2.2.1,
        (objFold_fst_fields _ _).2.2.2.2.1⟩
  · exact ⟨rfl, rfl, rfl⟩

/-- Standing on the exit tile, the exit stage wins exactly when the exit
flag is set. -/
theorem moveExitCheck_gameWon (s : GameState) (nx ny : Int)
    (hexit : (tileAt s.map nx ny == '>') = true) :
    (moveExitCheck s nx ny).gameWon = (s.gameWon || s.exitOpen) := by
  unfold moveExitCheck
  cases he : s.exitOpen
  · rw [if_neg (by rw [hexit]; decide), Bool.or_false]
  · rw [if_pos (by rw [hexit]; decide)]
    dsimp only
    rw [Bool.or_true]
    split <;> exact (objFold_fst_fields _ _).2.1

/-- C1 counterexample: in `S1c` the first move collects the single
primary item and unlocks the exit; the *second* move collects a bonus
item, and because the unlock branch re-runs its comparison on every
pickup, it re-sets the already-set flag and emits a second `doorOpen`
unlock event — refuting "collecting the last primary loot item sets the
unlock flag exactly once — no later pickup sets (or re-sets) it
again". -/
theorem C1_counterexample_unlock_refires_on_later_pickup :
    (moveThief S1c 1 0).exitOpen = true ∧
    (moveThief S1c 1 0).primaryLootCollected = 1 ∧
    (moveThief (moveThief S1c 1 0) 1 0).sounds =
      ["move", "loot", "doorOpen", "move", "loot", "doorOpen"] := by decide

/-- C1 (amended): (i) a successful step onto the exit tile (running
game, walkable destination holding `'>'` and no laser, tripwire or loot)
wins exactly when the exit flag is set; (ii) a step preserves the ledger
invariant "exit flag set ⟺ `primaryLootCollected ≥ primaryLootTotal`";
(iii) a set exit flag is never cleared by a step.  (The unlock branch
however re-fires — flag re-set and `doorOpen` event — on every later
pickup once the quota is met.) -/
theorem C1_amended_exit_win_iff_unlocked (s : GameState) (dx dy : Int) :
    ((s.gameOver || s.gameWon || s.thief.picking) = false →
      isWalkable s (s.thief.x + dx) (s.thief.y + dy) = true →
      (tileAt s.map (s.thief.x + dx) (s.thief.y + dy) == '>') = true →
      s.lasers.find? (fun l =>
        l.x == s.thief.x + dx && l.y == s.thief.y + dy && l.active) = none →
      s.tripwires.find? (fun t =>
        t.x == s.thief.x + dx && t.y == s.thief.y + dy && !t.triggered) = none →
      s.loot.find? (fun l =>
        l.x == s.thief.x + dx && l.y == s.thief.y + dy && !l.collected) = none →
      (moveThief s dx dy).gameWon = s.exitOpen) ∧
    ((s.exitOpen = true ↔ s.primaryLootCollected ≥ s.primaryLootTotal) →
      ((moveThief s dx dy).exitOpen = true ↔
        (moveThief s dx dy).primaryLootCollected ≥
          (moveThief s dx dy).primaryLootTotal)) ∧
    (s.exitOpen = true → (moveThief s dx dy).exitOpen = true) := by
  refine ⟨?_, ?_, ?_⟩
  · intro hrun hwalk hexit hlaser htrip hloot
    have hgw : s.gameWon = false := by
      cases hg : s.gameWon
      · rfl
      · rw [hg] at hrun
        simp at hrun
    have hA : ∀ t : GameState, t.tripwires = s.tripwires → t.loot = s.loot →
        t.map = s.map → t.gameWon = false → t.exitOpen = s.exitOpen →
        (moveExitCheck (moveSafesCheck (moveLootCheck
          (moveTripwireCheck t (s.thief.x + dx) (s.thief.y + dy))
          (s.thief.x + dx) (s.thief.y + dy)) (s.thief.x + dx) (s.thief.y + dy))
          (s.thief.x + dx) (s.thief.y + dy)).gameWon = s.exitOpen := by
      intro t ht hl hm hgwt hx
      rw [moveTripwireCheck_none t _ _ (by rw [ht]; exact htrip),
        moveLootCheck_none t _ _ (by rw [hl]; exact hloot),
        moveExitCheck_gameWon (moveSafesCheck t (s.thief.x + dx) (s.thief.y + dy)) _ _
          (by rw [(moveSafesCheck_fields t _ _).2.2.2.2, hm]; exact hexit),
        (moveSafesCheck_fields t _ _).1, (moveSafesCheck_fields t _ _).2.1, hgwt, hx,
        Bool.false_or]
    unfold moveThief
    rw [if_neg (by rw [hrun]; decide)]
    dsimp only
    rw [if_neg (by rw [hwalk]; decide)]
    have hlc : moveLaserCheck s (s.thief.x + dx) (s.thief.y + dy) = (s, false) := by
      unfold moveLaserCheck
      rw [hlaser]
    rw [hlc]
    dsimp only
    exact hA _ rfl rfl rfl hgw rfl
  · intro hinv
    have hB : ∀ t : GameState,
        (t.exitOpen = true ↔ t.primaryLootCollected ≥ t.primaryLootTotal) →
        ((moveExitCheck (moveSafesCheck (moveLootCheck
          (moveTripwireCheck t (s.thief.x + dx) (s.thief.y + dy))
          (s.thief.x + dx) (s.thief.y + dy)) (s.thief.x + dx) (s.thief.y + dy))
          (s.thief.x + dx) (s.thief.y + dy)).exitOpen = true ↔
         (moveExitCheck (moveSafesCheck (moveLootCheck
          (moveTripwireCheck t (s.thief.x + dx) (s.thief.y + dy))
          (s.thief.x + dx) (s.thief.y + dy)) (s.thief.x + dx) (s.thief.y + dy))
          (s.thief.x + dx) (s.thief.y + dy)).primaryLootCollected ≥
         (moveExitCheck (moveSafesCheck (moveLootCheck
          (moveTripwireCheck t (s.thief.x + dx) (s.thief.y + dy))
          (s.thief.x + dx) (s.thief.y + dy)) (s.thief.x + dx) (s.thief.y + dy))
          (s.thief.x + dx) (s.thief.y + dy)).primaryLootTotal) := by
      intro t htinv
      have h1 := moveTripwireCheck_frame t (s.thief.x + dx) (s.thief.y + dy)
      have h2 := moveLootCheck_invariant
        (moveTripwireCheck t (s.thief.x + dx) (s.thief.y + dy))
        (s.thief.x + dx) (s.thief.y + dy)
        (by rw [h1.2.2.2.2.2.1, h1.2.2.2.2.2.2.1, h1.2.2.2.2.2.2.2.1]; exact htinv)
      have h3 := moveSafesCheck_fields
        (moveLootCheck (moveTripwireCheck t (s.thief.x + dx) (s.thief.y + dy))
          (s.thief.x + dx) (s.thief.y + dy)) (s.thief.x + dx) (s.thief.y + dy)
      have h4 := moveExitCheck_fields
        (moveSafesCheck (moveLootCheck
          (moveTripwireCheck t (s.thief.x + dx) (s.thief.y + dy))
          (s.thief.x + dx) (s.thief.y + dy)) (s.thief.x + dx) (s.thief.y + dy))
        (s.thief.x + dx) (s.thief.y + dy)
      rw [h4.1, h4.2.1, h4.2.2, h3.2.1, h3.2.2.1, h3.2.2.2.1]
      exact h2
    unfold moveThief
    split
    · exact hinv
    · dsimp only
      split
      · exact hinv
      · cases hlc : moveLaserCheck s (s.thief.x + dx) (s.thief.y + dy) with
        | mk t b =>
          have hfl := moveLaserCheck_fst_fields s (s.thief.x + dx) (s.thief.y + dy)
          rw [hlc] at hfl
          dsimp only at hfl
          cases b
          · dsimp only
            refine hB _ ?_
            show t.exitOpen = true ↔ t.primaryLootCollected ≥ t.primaryLootTotal
            rw [hfl.1, hfl.2.1, hfl.2.2]
            exact hinv
          · dsimp only
            rw [hfl.1, hfl.2.1, hfl.2.2]
            exact hinv
  · intro hopen
    have hC : ∀ t : GameState, t.exitOpen = true →
        (moveExitCheck (moveSafesCheck (moveLootCheck
          (moveTripwireCheck t (s.thief.x + dx) (s.thief.y + dy))
          (s.thief.x + dx) (s.thief.y + dy)) (s.thief.x + dx) (s.thief.y + dy))
          (s.thief.x + dx) (s.thief.y + dy)).exitOpen = true := by
      intro t hto
      have h1 := (moveTripwireCheck_frame t (s.thief.x + dx) (s.thief.y + dy)).2.2.2.2.2.1
      have h2 := moveLootCheck_exitOpen_mono
        (moveTripwireCheck t (s.thief.x + dx) (s.thief.y + dy))
        (s.thief.x + dx) (s.thief.y + dy) (h1.trans hto)
      rw [(moveExitCheck_fields _ _ _).1, (moveSafesCheck_fields _ _ _).2.1]
      exact h2
    unfold moveThief
    split
    · exact hopen
    · dsimp only
      split
      · exact hopen
      · cases hlc : moveLaserCheck s (s.thief.x + dx) (s.thief.y + dy) with
        | mk t b =>
          have hfl := moveLaserCheck_fst_fields s (s.thief.x + dx) (s.thief.y + dy)
          rw [hlc] at hfl
          dsimp only at hfl
          cases b
          · dsimp only
            exact hC _ (hfl.1.trans hopen)
          · dsimp only
            rw [hfl.1]
            exact hopen

/-- C1 witness: the thief of `SW`, one tile above the unlocked exit,
satisfies every hypothesis of the amended theorem; the step wins. -/
theorem C1_witness :
    ((moveThief SW 0 1).gameWon = SW.exitOpen) ∧
    ((moveThief SW 0 1).exitOpen = true ↔
      (moveThief SW 0 1).primaryLootCollected ≥ (moveThief SW 0 1).primaryLootTotal) ∧
    ((moveThief SW 0 1).exitOpen = true) :=
  ⟨(C1_amended_exit_win_iff_unlocked SW 0 1).1 (by decide) (by decide) (by decide)
      (by decide) (by decide) (by decide),
   (C1_amended_exit_win_iff_unlocked SW 0 1).2.1 (by decide),
   (C1_amended_exit_win_iff_unlocked SW 0 1).2.2 (by decide)⟩
